import Mathlib

/-
Verification development for the slides2text backend
(src/backend/app/main.py, src/backend/app/utils.py, src/backend/app/config.py).

The Python code is shallowly embedded: pure computations become Lean
functions; calls to external tools (LibreOffice, pdf2image, the OpenAI and
Gemini HTTP APIs, the filesystem and the wall clock) are parameters packaged
in environment structures, so the orchestration logic itself is executable
and provable.  Exceptions are modelled with Except; the mutable
processing_status dict is modelled as a lookup function together with the
ordered list of values (the trace) a job entry takes over time.
-/

/-! ## CPython string helpers used by the sources -/

/-- Whitespace test backing Python str.strip (ASCII whitespace). -/
def isSpaceChar (c : Char) : Bool :=
  c = ' ' || c = '\t' || c = '\n' || c = '\r'

/-- Python str.strip: drop whitespace from both ends. -/
def pyStrip (s : String) : String :=
  String.mk (((s.data.dropWhile isSpaceChar).reverse.dropWhile isSpaceChar).reverse)

/-- Index of the last dot in a character list (CPython str.rfind of a dot). -/
def rfindDot : List Char → Option Nat
  | [] => none
  | c :: cs =>
    match rfindDot cs with
    | some i => some (i + 1)
    | none => if c = '.' then some 0 else none

/-- CPython pathlib PurePath.stem on a file name: the name minus its suffix,
where the suffix is the part from the last dot, provided that dot is neither
the first nor the last character. -/
def pyStem (name : String) : String :=
  match rfindDot name.data with
  | some i => if 0 < i && i + 1 < name.data.length then String.mk (name.data.take i) else name
  | none => name

/-- CPython pathlib PurePath.with_suffix applied to a file name: the stem
followed by the new suffix (appends when the name had no suffix). -/
def pyWithSuffix (name suf : String) : String := pyStem name ++ suf

/-- Python `s or default` on strings: the empty string is falsy. -/
def pyOr (s dflt : String) : String := if s = "" then dflt else s

/-- Python str.endswith: the argument is a suffix of the string.  (Defined
over the character lists so that it evaluates inside the kernel.) -/
def pyEndsWith (s suffix : String) : Bool := List.isSuffixOf suffix.data s.data

/-- Python truthiness of an optional string (None and the empty string are falsy). -/
def pyFalsy : Option String → Bool
  | none => true
  | some s => s == ""

/-! ## Paths

A pathlib Path is modelled by its parent directory (rendered as a string)
and its file name; `render` is the full textual path. -/

structure PyPath where
  parent : String
  name : String
deriving Repr, DecidableEq

def PyPath.render (p : PyPath) : String := p.parent ++ "/" ++ p.name

/-! ## utils.pptx_to_pdf (src/backend/app/utils.py lines 16-52) -/

/-- The exception class raised by pptx_to_pdf, with its message. -/
inductive ConvError where
  | runtimeError (msg : String)
  | fileNotFoundError (msg : String)
deriving Repr, DecidableEq

def ConvError.msg : ConvError → String
  | .runtimeError m => m
  | .fileNotFoundError m => m

/-- External world seen by pptx_to_pdf: whether `which soffice` exits 0,
the exit code and stderr of the LibreOffice conversion subprocess, and the
state of the disk after that subprocess ran.  Paths are taken as already
absolute (Path.absolute is the identity in this model). -/
structure ConvEnv where
  sofficeResolvable : Bool
  convReturncode : Int
  convStderr : String
  fileExists : String → Bool

/-- Message of the RuntimeError raised when `which soffice` fails
(utils.py line 22; the quotes around the apt-get hint are dropped). -/
def missingDepMsg : String :=
  "LibreOffice is not installed. Please install it using apt-get install libreoffice"

/-- utils.pptx_to_pdf: check soffice is resolvable, run the conversion,
compute the expected output path from the input stem, and verify it exists. -/
def pptx_to_pdf (env : ConvEnv) (pptx_path : PyPath) (out_dir : String) :
    Except ConvError PyPath :=
  if !env.sofficeResolvable then
    .error (.runtimeError missingDepMsg)
  else if env.convReturncode != 0 then
    .error (.runtimeError ("LibreOffice conversion failed: " ++ env.convStderr))
  else
    let pdf_path : PyPath := ⟨out_dir, pyWithSuffix pptx_path.name ".pdf"⟩
    if !env.fileExists pdf_path.render then
      .error (.fileNotFoundError ("PDF file not created at " ++ pdf_path.render))
    else
      .ok pdf_path

/-! ## utils.pdf_to_images (src/backend/app/utils.py lines 54-82) -/

/-- External world seen by pdf_to_images: the list of image files (one per
PDF page, with their filename attributes) that pdf2image.convert_from_path
writes into the requested output folder. -/
structure RasterEnv where
  pageImages : List String

/-- The keyword arguments pdf_to_images passes to convert_from_path. -/
structure RasterCall where
  dpi : Nat
  output_folder : String
  fmt : String
deriving Repr, DecidableEq

/-- Observable behaviour of one pdf_to_images call: whether mkdir ran on the
output directory, the convert_from_path call that was issued, and the result
(the paths of the produced images, or the raised exception message). -/
structure RasterRun where
  madeOutputDir : Bool
  call : RasterCall
  result : Except String (List String)

/-- utils.pdf_to_images: mkdir the output directory, rasterize at 200 DPI as
PNG, raise when zero images were produced, otherwise return one path per
page image. -/
def pdf_to_images (env : RasterEnv) (pdf_path : PyPath) (out_dir : String) : RasterRun :=
  let call : RasterCall := { dpi := 200, output_folder := out_dir, fmt := "png" }
  let pil_images := env.pageImages
  if pil_images.isEmpty then
    { madeOutputDir := true, call := call,
      result := .error "No images were generated from the PDF" }
  else
    { madeOutputDir := true, call := call, result := .ok pil_images }

/-! ## utils.summarize_openai / utils.summarize_gemini
(src/backend/app/utils.py lines 97-135 and 137-183) -/

def b64Alphabet : List Char :=
  "ABCDEFGHIJKLMNOPQRSTUVWXYZabcdefghijklmnopqrstuvwxyz0123456789+/".data

def b64Char (n : Nat) : Char := b64Alphabet.getD n '='

/-- base64.b64encode over a byte list (bytes as Nat below 256). -/
def b64encode : List Nat → String
  | [] => ""
  | [a] => String.mk [b64Char (a / 4), b64Char (a % 4 * 16), '=', '=']
  | [a, b] => String.mk [b64Char (a / 4), b64Char (a % 4 * 16 + b / 16), b64Char (b % 16 * 4), '=']
  | a :: b :: c :: rest =>
      String.mk [b64Char (a / 4), b64Char (a % 4 * 16 + b / 16),
                 b64Char (b % 16 * 4 + c / 64), b64Char (c % 64)] ++ b64encode rest

/-- External world seen by the two summarizers: the readable files on disk
(open(path, "rb").read()), the outcome of the OpenAI chat-completion request
on a given base64 payload, whether PIL Image.open succeeds on a path, and
the outcome of the Gemini generate_content request on a given image path.
An `.error` models a raised exception carrying str(e). -/
structure RemoteEnv where
  readFile : String → Option (List Nat)
  chatOutcome : String → Except String String
  imageOpens : String → Bool
  geminiOutcome : String → Except String String

instance {ε α : Type} [DecidableEq ε] [DecidableEq α] : DecidableEq (Except ε α) :=
  fun x y =>
    match x, y with
    | .ok a, .ok b => decidable_of_iff (a = b) ⟨fun h => h ▸ rfl, Except.ok.inj⟩
    | .error a, .error b => decidable_of_iff (a = b) ⟨fun h => h ▸ rfl, Except.error.inj⟩
    | .ok _, .error _ => isFalse fun h => Except.noConfusion h
    | .error _, .ok _ => isFalse fun h => Except.noConfusion h

/-- Observable behaviour of one summarizer call: how many remote API
requests were actually issued, and the returned summary or raised error. -/
structure SummRun where
  remoteCalls : Nat
  result : Except String String
deriving Repr, DecidableEq

/-- utils.summarize_openai: opens image_path on disk, base64-encodes the
bytes, and sends one chat-completion request whose reply content is
stripped.  A failing open raises before any remote call (api_key only
configures the client object). -/
def summarize_openai (env : RemoteEnv) (image_path : String) (api_key : Option String) :
    SummRun :=
  let _ := api_key
  match env.readFile image_path with
  | none => { remoteCalls := 0,
              result := .error ("No such file or directory: " ++ image_path) }
  | some bytes =>
      let base64_image := b64encode bytes
      match env.chatOutcome base64_image with
      | .error e => { remoteCalls := 1, result := .error e }
      | .ok content => { remoteCalls := 1, result := .ok (pyStrip content) }

/-- utils.summarize_gemini: raises ValueError on a falsy api_key, opens
image_path via PIL (raising when it is not a readable image), and sends one
generate_content request whose response text is stripped. -/
def summarize_gemini (env : RemoteEnv) (image_path : String) (api_key : Option String)
    (model : String) : SummRun :=
  let _ := model
  if pyFalsy api_key then
    { remoteCalls := 0, result := .error "GEMINI_API_KEY not set" }
  else if !env.imageOpens image_path then
    { remoteCalls := 0, result := .error ("cannot identify image file " ++ image_path) }
  else
    match env.geminiOutcome image_path with
    | .error e => { remoteCalls := 1, result := .error e }
    | .ok t => { remoteCalls := 1, result := .ok (pyStrip t) }

/-! ## main.py data model: the processing_status job table -/

/-- One entry of the results list built by main.upload_file
(keys slide / text / summary, main.py lines 177-181 and 187-191). -/
structure SlideResult where
  slide : Nat
  text : String
  summary : String
deriving Repr, DecidableEq

/-- A processing_status entry as written by main.upload_file
(status / progress / message / results, main.py lines 93-98). -/
structure UJob where
  status : String
  progress : Nat
  message : String
  results : List SlideResult
deriving Repr, DecidableEq

/-- The entry created for a fresh job (main.py lines 93-98). -/
def initialUJob : UJob :=
  { status := "uploading", progress := 0,
    message := "File uploaded, starting processing...", results := [] }

/-- The processing_status dict, keyed by job id. -/
def UTable : Type := String → Option UJob

/-- main.py line 92: job_id = str(int(time.time())).  The clock value is a
nonnegative rational number of seconds, and int() truncates it, which for
nonnegative values is the floor. -/
def jobIdOf (t : ℚ) : String := toString (Rat.floor t)

/-! ## main.upload_file (main.py lines 60-212) -/

/-- All external behaviour one pipeline run depends on: the conversion and
rasterization environments, the remote-API environment, and the text
extractor.  extract_text is a parameter because main.py imports it from
app.utils, which does not define it (see the import claims below); an
`.error` models a raised exception. -/
structure PipelineEnv where
  conv : ConvEnv
  raster : RasterEnv
  remote : RemoteEnv
  extract : String → Except String String

/-- What one iteration of the per-slide loop in upload_file produces
(main.py lines 144-191): the appended results entry, whether the provider
summarize function was entered at all, and how many remote API requests it
issued. -/
structure SlideOutcome where
  entry : SlideResult
  summarizerEntered : Bool
  remoteCalls : Nat
deriving Repr, DecidableEq

/-- The inline error marker written by upload_file when Gemini
summarization raises for slide i (main.py lines 164-166). -/
def geminiErrMarker (i : Nat) (e : String) : String :=
  "[Error: Gemini summarization failed for slide " ++ toString i ++ ": " ++ e ++ "]"

/-- The inline error marker written by upload_file when OpenAI
summarization raises for slide i (main.py lines 173-175). -/
def openaiErrMarker (i : Nat) (e : String) : String :=
  "[Error: OpenAI summarization failed for slide " ++ toString i ++ ": " ++ e ++ "]"

/-- The error entry appended when the outer per-slide handler of
upload_file catches an exception (main.py lines 184-191). -/
def slideFailEntry (i : Nat) (e : String) : SlideResult :=
  { slide := i, text := "[Error processing slide]",
    summary := "[Error: Failed to process slide " ++ toString i ++ ": " ++ e ++ "]" }

/-- The provider dispatch of both per-slide loops (main.py lines 154-170
and 257-264): gemini when the provider tag equals the string gemini,
otherwise openai. -/
def uSummarize (env : PipelineEnv) (provider : String) (okey gkey : Option String)
    (model : String) (text : String) : SummRun :=
  if provider == "gemini" then summarize_gemini env.remote text gkey model
  else summarize_openai env.remote text okey

/-- The summary string upload_file holds after the inner try/except for
slide i (main.py lines 152-175): the summarizer result on success, the
provider error marker on a raised exception. -/
def uploadSummary (env : PipelineEnv) (provider : String) (okey gkey : Option String)
    (model : String) (i : Nat) (text : String) : String :=
  match (uSummarize env provider okey gkey model text).result with
  | .ok s => s
  | .error e =>
      if provider == "gemini" then geminiErrMarker i e else openaiErrMarker i e

/-- One iteration of the per-slide loop of upload_file for slide i on image
image_path: extract text (a failure is caught by the outer per-slide
handler, lines 184-191), then summarize with the selected provider (a
failure is caught by the inner handler and turned into an inline error
marker, lines 163-166 and 172-175), and append the entry, replacing an
empty summary by the availability placeholder (line 180). -/
def uploadSlide (env : PipelineEnv) (provider : String) (okey gkey : Option String)
    (model : String) (i : Nat) (image_path : String) : SlideOutcome :=
  match env.extract image_path with
  | .error e =>
      { entry := slideFailEntry i e, summarizerEntered := false, remoteCalls := 0 }
  | .ok text =>
      { entry := { slide := i, text := text,
                   summary := pyOr (uploadSummary env provider okey gkey model i text)
                     "[No summary available]" },
        summarizerEntered := true,
        remoteCalls := (uSummarize env provider okey gkey model text).remoteCalls }

/-- The whole per-slide loop of upload_file, enumerating image paths from
index i (Python enumerate(image_paths, 1) starts at 1). -/
def uploadSlides (env : PipelineEnv) (provider : String) (okey gkey : Option String)
    (model : String) : Nat → List String → List SlideOutcome
  | _, [] => []
  | i, p :: rest =>
      uploadSlide env provider okey gkey model i p ::
        uploadSlides env provider okey gkey model (i + 1) rest

/-- The HTTP response of the upload route: a raised HTTPException with a
status code and detail, or the final JSONResponse payload. -/
inductive HttpOutcome where
  | httpError (code : Nat) (detail : String)
  | success (progress : Nat) (message : String) (results : List SlideResult)
deriving Repr, DecidableEq

/-- Observable behaviour of one upload_file request: the HTTP outcome, the
ordered list of values the processing_status entry of this job took (empty
when validation rejected the request before the job was created), the final
job table, the job id, and the per-slide outcomes. -/
structure UploadRun where
  outcome : HttpOutcome
  trace : List UJob
  table : UTable
  jobId : Option String
  slideOutcomes : List SlideOutcome

/-- Fixed temporary directory stood up by tempfile.TemporaryDirectory. -/
def uploadTmpDir : String := "/tmp/upload"

/-- The body of upload_file after validation passed (main.py lines 91-205):
create the job entry, save the file, convert, rasterize, run the per-slide
loop, then mutate the entry to completed / 100 / message / results (lines
194-197; each mutation is a separate observable snapshot).  Conversion and
rasterization failures raise HTTPException(500) out of the handler, leaving
the job entry at its creation value. -/
def upload_core (env : PipelineEnv) (t : ℚ) (saveErr : Option String) (table0 : UTable)
    (filename provider : String) (okey gkey : Option String) (model : String) : UploadRun :=
  let job_id := jobIdOf t
  let j0 := initialUJob
  let step : HttpOutcome × List UJob × List SlideOutcome :=
    match saveErr with
    | some e => (.httpError 500 ("Failed to save uploaded file: " ++ e), [], [])
    | none =>
      match pptx_to_pdf env.conv ⟨uploadTmpDir, filename⟩ (uploadTmpDir ++ "/pdf") with
      | .error e => (.httpError 500 ("Failed to convert PPTX to PDF: " ++ e.msg), [], [])
      | .ok pdf_path =>
        match (pdf_to_images env.raster pdf_path (uploadTmpDir ++ "/images")).result with
        | .error e => (.httpError 500 ("Failed to convert PDF to images: " ++ e), [], [])
        | .ok image_paths =>
          let outcomes := uploadSlides env provider okey gkey model 1 image_paths
          let results := outcomes.map (fun o => o.entry)
          let j1 := { j0 with status := "completed" }
          let j2 := { j1 with progress := 100 }
          let j3 := { j2 with message := "Processing completed successfully" }
          let j4 := { j3 with results := results }
          (.success 100 "Processing completed successfully" results,
           [j1, j2, j3, j4], outcomes)
  let trace := j0 :: step.2.1
  { outcome := step.1, trace := trace,
    table := fun id => if id = job_id then some (trace.getLastD j0) else table0 id,
    jobId := some job_id, slideOutcomes := step.2.2 }

/-- main.upload_file: validate the file extension and the presence of the
selected provider key (main.py lines 76-89), then run the pipeline body. -/
def upload_file (env : PipelineEnv) (t : ℚ) (saveErr : Option String) (table0 : UTable)
    (filename provider : String) (okey gkey : Option String) (model : String) : UploadRun :=
  if !(pyEndsWith filename ".ppt" || pyEndsWith filename ".pptx") then
    { outcome := .httpError 400
        ("Invalid file type: " ++ filename ++ ". Only PowerPoint files (.ppt, .pptx) are allowed"),
      trace := [], table := table0, jobId := none, slideOutcomes := [] }
  else if provider == "openai" && pyFalsy okey then
    { outcome := .httpError 400 "OpenAI API key is required for OpenAI provider",
      trace := [], table := table0, jobId := none, slideOutcomes := [] }
  else if provider == "gemini" && pyFalsy gkey then
    { outcome := .httpError 400 "Gemini API key is required for Gemini provider",
      trace := [], table := table0, jobId := none, slideOutcomes := [] }
  else
    upload_core env t saveErr table0 filename provider okey gkey model

/-! ## main.process_file (main.py lines 220-290) -/

/-- One entry of the results list built by main.process_file
(keys slide_num / summary / raw_text, main.py lines 267-278). -/
structure BgSlideResult where
  slide_num : Nat
  summary : String
  raw_text : String
deriving Repr, DecidableEq

/-- A processing_status entry as mutated by main.process_file. -/
structure BgJob where
  status : String
  progress : Nat
  message : String
  results : List BgSlideResult
deriving Repr, DecidableEq

/-- The entry a fresh job starts from in the background design (the same
creation write as initialUJob, main.py lines 93-98). -/
def initialBgJob : BgJob :=
  { status := "uploading", progress := 0,
    message := "File uploaded, starting processing...", results := [] }

/-- main.py line 248-249: progress = int(20 + (idx / total_slides * 60)).
With exact (rational) arithmetic and a nonnegative value, the truncation is
20 plus the floor of idx * 60 / total, which is Nat division. -/
def pfProgress (idx total : Nat) : Nat := 20 + idx * 60 / total

/-- Insertion step of Python sorted on strings (ascending, stable). -/
def insertStr (s : String) : List String → List String
  | [] => [s]
  | t :: ts =>
    match compare s t with
    | .gt => t :: insertStr s ts
    | _ => s :: t :: ts

/-- Python sorted on a list of strings (main.py line 246 sorts the slide
image paths before enumerating them). -/
def pySortedStr : List String → List String
  | [] => []
  | s :: ss => insertStr s (pySortedStr ss)

/-- The result entry process_file appends for slide idx with extracted text
raw_text (main.py lines 256-278): the provider summary on success, the
string Error: followed by the diagnostic on a raised exception. -/
def bgSlideEntry (env : PipelineEnv) (provider : String) (okey gkey : Option String)
    (model : String) (idx : Nat) (raw_text : String) : BgSlideResult :=
  match (uSummarize env provider okey gkey model raw_text).result with
  | .ok summary => { slide_num := idx, summary := summary, raw_text := raw_text }
  | .error e => { slide_num := idx, summary := "Error: " ++ e, raw_text := raw_text }

/-- The per-slide loop of process_file (main.py lines 246-281), from slide
index idx with the current job entry.  Each dict mutation is one snapshot
appended to the returned trace; the returned BgJob is the entry after the
loop, and the Option String is the message of an exception that escaped the
loop (extract_text is not guarded per slide here, so its failure aborts the
whole job via the outer handler). -/
def bgSlides (env : PipelineEnv) (provider : String) (okey gkey : Option String)
    (model : String) (total : Nat) :
    Nat → List String → BgJob → List BgJob × BgJob × Option String
  | _, [], job => ([], job, none)
  | idx, slide_img :: rest, job =>
    let j1 := { job with progress := pfProgress idx total }
    let j2 := { j1 with
      message := "Processing slide " ++ toString idx ++ "/" ++ toString total ++ "..." }
    match env.extract slide_img with
    | .error e => ([j1, j2], j2, some e)
    | .ok raw_text =>
      let j3 := { j2 with
        results := j2.results ++ [bgSlideEntry env provider okey gkey model idx raw_text] }
      let r := bgSlides env provider okey gkey model total (idx + 1) rest j3
      (j1 :: j2 :: j3 :: r.1, r.2)

/-- main.process_file: the full trace of values the processing_status entry
takes, starting from its value j0 on entry.  Status processing and the
per-stage messages are set, conversion and rasterization run, the per-slide
loop runs over the sorted image paths, and either the outer exception
handler records status error with the diagnostic (lines 288-290) or the
final block records completed / 100 / message (lines 284-286). -/
def process_file (env : PipelineEnv) (pptx_path : PyPath) (work_dir : String)
    (provider : String) (okey gkey : Option String) (model : String) (j0 : BgJob) :
    List BgJob :=
  let j1 := { j0 with status := "processing" }
  let j2 := { j1 with message := "Converting to PDF..." }
  match pptx_to_pdf env.conv pptx_path (work_dir ++ "/pdf") with
  | .error e =>
      let jE := { j2 with status := "error" }
      [j0, j1, j2, jE, { jE with message := e.msg }]
  | .ok pdf_file =>
      let j3 := { j2 with progress := 20 }
      let j4 := { j3 with message := "Converting PDF to images..." }
      match (pdf_to_images env.raster pdf_file (work_dir ++ "/images")).result with
      | .error e =>
          let jE := { j4 with status := "error" }
          [j0, j1, j2, j3, j4, jE, { jE with message := e }]
      | .ok slides =>
          let sortedSlides := pySortedStr slides
          let total := sortedSlides.length
          let r := bgSlides env provider okey gkey model total 1 sortedSlides j4
          match r.2.2 with
          | some e =>
              let jE := { r.2.1 with status := "error" }
              [j0, j1, j2, j3, j4] ++ r.1 ++ [jE, { jE with message := e }]
          | none =>
              let j5 := { r.2.1 with status := "completed" }
              let j6 := { j5 with progress := 100 }
              [j0, j1, j2, j3, j4] ++ r.1 ++
                [j5, j6, { j6 with message := "Processing complete!" }]

/-! ## Module loading (main.py line 14 against utils.py)

Python resolves a from-import at module load time, name by name, and raises
ImportError at the first name the source module does not define; the rest of
the importing module (including every route registration) never executes. -/

/-- The top-level function names defined by src/backend/app/utils.py. -/
def utilsDefinedNames : List String :=
  ["pptx_to_pdf", "pdf_to_images", "check_openai_environment",
   "summarize_openai", "summarize_gemini"]

/-- The names main.py line 14 imports from app.utils, in source order. -/
def mainUtilsImportList : List String :=
  ["pptx_to_pdf", "pdf_to_images", "extract_text", "summarize_openai", "summarize_gemini"]

/-- Resolve a from-import list against the defined names, failing at the
first unresolvable name as CPython does. -/
def resolveImports : List String → Except String Unit
  | [] => .ok ()
  | n :: ns =>
      if n ∈ utilsDefinedNames then resolveImports ns
      else .error ("cannot import name " ++ n ++ " from app.utils")

/-- Loading src/backend/app/main.py: line 14 is its first project import. -/
def loadMainModule : Except String Unit := resolveImports mainUtilsImportList

/-- The FastAPI app and its route handlers exist only if the module loaded. -/
def canServeRequests : Bool :=
  match loadMainModule with
  | .ok _ => true
  | .error _ => false

/-- The empty processing_status table. -/
def emptyUTable : UTable := fun _ => none

/-- The four final mutations of upload_file (main.py lines 194-197), as the
tail of the job trace, ending in the completed entry. -/
def uploadFinalTrace (results : List SlideResult) : List UJob :=
  [{ initialUJob with status := "completed" },
   { initialUJob with status := "completed", progress := 100 },
   { initialUJob with
       status := "completed", progress := 100,
       message := "Processing completed successfully" },
   { status := "completed", progress := 100,
     message := "Processing completed successfully", results := results }]

/-- The results entries the process_file loop appends, by the recursion of
the source loop itself (main.py lines 246-278): one entry per slide, in
slide order, until (and excluding) the first slide whose text extraction
raises. -/
def bgResultsOf (env : PipelineEnv) (provider : String) (okey gkey : Option String)
    (model : String) : Nat → List String → List BgSlideResult
  | _, [] => []
  | idx, x :: xs =>
    match env.extract x with
    | .error _ => []
    | .ok raw =>
        bgSlideEntry env provider okey gkey model idx raw ::
          bgResultsOf env provider okey gkey model (idx + 1) xs

/-- The processing_status entry just before the per-slide loop of
process_file starts (main.py lines 229-238 applied to the entry value j0 on
entry). -/
def bgJ4 (j0 : BgJob) : BgJob :=
  { j0 with
      status := "processing", progress := 20,
      message := "Converting PDF to images..." }

def convOkEnv : ConvEnv :=
  { sofficeResolvable := true, convReturncode := 0, convStderr := "",
    fileExists := fun _ => true }

def convNoSoffice : ConvEnv := { convOkEnv with sofficeResolvable := false }

def raster1 : RasterEnv := { pageImages := ["/tmp/upload/images/page1.png"] }

def raster2 : RasterEnv :=
  { pageImages := ["/tmp/upload/images/page1.png", "/tmp/upload/images/page2.png"] }

def rasterNone : RasterEnv := { pageImages := [] }

def remoteHappy : RemoteEnv :=
  { readFile := fun _ => some [1, 2, 3],
    chatOutcome := fun _ => .ok "a vision summary",
    imageOpens := fun _ => true,
    geminiOutcome := fun _ => .ok "a gemini summary" }

def remoteNoFiles : RemoteEnv :=
  { remoteHappy with readFile := fun _ => none, imageOpens := fun _ => false }

def remoteBlank : RemoteEnv := { remoteHappy with chatOutcome := fun _ => .ok "" }

def extractConst (s : String) : String → Except String String := fun _ => .ok s

def envHappy : PipelineEnv :=
  { conv := convOkEnv, raster := raster1, remote := remoteHappy,
    extract := extractConst "slide text" }

def envHappy2 : PipelineEnv := { envHappy with raster := raster2 }

/-- An environment whose extractor returns the empty string for every
slide, with a filesystem on which the empty string is not a readable path
(CPython open with an empty path and PIL Image.open with an empty path
always raise FileNotFoundError). -/
def envEmptyText : PipelineEnv :=
  { envHappy with extract := extractConst "", remote := remoteNoFiles }

def envBlankSummary : PipelineEnv := { envHappy with remote := remoteBlank }

def envConvFail : PipelineEnv := { envHappy with conv := convNoSoffice }

def envUnreadableText : PipelineEnv := { envHappy with remote := remoteNoFiles }

/-- A clock reading of 9.5 seconds (written as an explicit fraction so that
it evaluates inside the kernel): a request in the same whole second as 9. -/
def halfPastNine : ℚ := ⟨19, 2, by decide, by decide⟩

/-! ## Helper lemmas -/

theorem string_length_zero (s : String) (h0 : s.length = 0) : s = "" := by
  cases s with
  | mk data =>
    cases data with
    | nil => rfl
    | cons c cs => simp [String.length] at h0

theorem string_append_ne_empty (s t : String) (hs : s ≠ "") : s ++ t ≠ "" := by
  intro h
  apply hs
  have hl := congrArg String.length h
  rw [String.length_append] at hl
  have hz : String.length "" = 0 := rfl
  rw [hz] at hl
  exact string_length_zero s (by omega)

theorem pyOr_of_ne_empty (s d : String) (h : s ≠ "") : pyOr s d = s := by
  simp [pyOr, h]

theorem geminiErrMarker_ne_empty (i : Nat) (e : String) : geminiErrMarker i e ≠ "" := by
  unfold geminiErrMarker
  exact string_append_ne_empty _ _ (string_append_ne_empty _ _ (string_append_ne_empty _ _
    (string_append_ne_empty _ _ (by decide))))

theorem openaiErrMarker_ne_empty (i : Nat) (e : String) : openaiErrMarker i e ≠ "" := by
  unfold openaiErrMarker
  exact string_append_ne_empty _ _ (string_append_ne_empty _ _ (string_append_ne_empty _ _
    (string_append_ne_empty _ _ (by decide))))

theorem geminiErrMarker_ne_no_text (i : Nat) (e : String) :
    geminiErrMarker i e ≠ "no text detected" := by
  unfold geminiErrMarker
  intro h
  have hl := congrArg String.length h
  simp only [String.length_append] at hl
  have h1 : 16 < ("[Error: Gemini summarization failed for slide ").length := by decide
  have h2 : ("no text detected").length = 16 := by decide
  omega

theorem openaiErrMarker_ne_no_text (i : Nat) (e : String) :
    openaiErrMarker i e ≠ "no text detected" := by
  unfold openaiErrMarker
  intro h
  have hl := congrArg String.length h
  simp only [String.length_append] at hl
  have h1 : 16 < ("[Error: OpenAI summarization failed for slide ").length := by decide
  have h2 : ("no text detected").length = 16 := by decide
  omega

theorem pptx_to_pdf_error_msg_ne_empty (env : ConvEnv) (p : PyPath) (d : String)
    (e : ConvError) (h : pptx_to_pdf env p d = .error e) : e.msg ≠ "" := by
  unfold pptx_to_pdf at h
  split at h
  · simp only [Except.error.injEq] at h
    subst h
    decide
  · split at h
    · simp only [Except.error.injEq] at h
      subst h
      exact string_append_ne_empty _ _ (by decide)
    · dsimp only at h
      split at h
      · simp only [Except.error.injEq] at h
        subst h
        exact string_append_ne_empty _ _ (by decide)
      · simp at h

theorem pdf_to_images_result_of_empty (env : RasterEnv) (p : PyPath) (d : String)
    (h : env.pageImages = []) :
    (pdf_to_images env p d).result = .error "No images were generated from the PDF" := by
  simp [pdf_to_images, h]

theorem pdf_to_images_result_of_nonempty (env : RasterEnv) (p : PyPath) (d : String)
    (h : env.pageImages ≠ []) :
    (pdf_to_images env p d).result = .ok env.pageImages := by
  cases he : env.pageImages with
  | nil => exact absurd he h
  | cons a l => simp [pdf_to_images, he]

theorem uploadSlide_extract_error (env : PipelineEnv) (provider : String)
    (okey gkey : Option String) (model : String) (i : Nat) (img e : String)
    (h : env.extract img = .error e) :
    uploadSlide env provider okey gkey model i img =
      { entry := slideFailEntry i e, summarizerEntered := false, remoteCalls := 0 } := by
  simp [uploadSlide, h]

theorem uploadSlide_extract_ok (env : PipelineEnv) (provider : String)
    (okey gkey : Option String) (model : String) (i : Nat) (img text : String)
    (h : env.extract img = .ok text) :
    uploadSlide env provider okey gkey model i img =
      { entry := { slide := i, text := text,
                   summary := pyOr (uploadSummary env provider okey gkey model i text)
                     "[No summary available]" },
        summarizerEntered := true,
        remoteCalls := (uSummarize env provider okey gkey model text).remoteCalls } := by
  simp [uploadSlide, h]

theorem uploadSlide_entry_slide (env : PipelineEnv) (provider : String)
    (okey gkey : Option String) (model : String) (i : Nat) (img : String) :
    (uploadSlide env provider okey gkey model i img).entry.slide = i := by
  unfold uploadSlide
  cases env.extract img <;> rfl

theorem uploadSlides_map_slide (env : PipelineEnv) (provider : String)
    (okey gkey : Option String) (model : String) :
    ∀ (l : List String) (s : Nat),
      (uploadSlides env provider okey gkey model s l).map (fun o => o.entry.slide) =
        List.range' s l.length
  | [], _ => rfl
  | x :: xs, s => by
      simp only [uploadSlides, List.map_cons, List.length_cons, List.range'_succ,
        uploadSlide_entry_slide, uploadSlides_map_slide env provider okey gkey model xs (s + 1)]

theorem uploadSlides_length (env : PipelineEnv) (provider : String)
    (okey gkey : Option String) (model : String) (l : List String) (s : Nat) :
    (uploadSlides env provider okey gkey model s l).length = l.length := by
  have h := congrArg List.length (uploadSlides_map_slide env provider okey gkey model l s)
  simpa using h

theorem upload_file_valid (env : PipelineEnv) (t : ℚ) (saveErr : Option String)
    (table0 : UTable) (filename provider : String) (okey gkey : Option String) (model : String)
    (hf : (pyEndsWith filename ".ppt" || pyEndsWith filename ".pptx") = true)
    (h1 : (provider == "openai" && pyFalsy okey) = false)
    (h2 : (provider == "gemini" && pyFalsy gkey) = false) :
    upload_file env t saveErr table0 filename provider okey gkey model =
      upload_core env t saveErr table0 filename provider okey gkey model := by
  simp [upload_file, hf, h1, h2]

theorem upload_core_table (env : PipelineEnv) (t : ℚ) (saveErr : Option String)
    (table0 : UTable) (filename provider : String) (okey gkey : Option String)
    (model : String) (id : String) :
    (upload_core env t saveErr table0 filename provider okey gkey model).table id =
      if id = jobIdOf t then
        some ((upload_core env t saveErr table0 filename provider okey gkey model).trace.getLastD
          initialUJob)
      else table0 id := by
  unfold upload_core
  dsimp only

theorem upload_core_jobId (env : PipelineEnv) (t : ℚ) (saveErr : Option String)
    (table0 : UTable) (filename provider : String) (okey gkey : Option String)
    (model : String) :
    (upload_core env t saveErr table0 filename provider okey gkey model).jobId =
      some (jobIdOf t) := by
  unfold upload_core
  rfl

theorem upload_core_save_error (env : PipelineEnv) (t : ℚ) (e : String)
    (table0 : UTable) (filename provider : String) (okey gkey : Option String)
    (model : String) :
    (upload_core env t (some e) table0 filename provider okey gkey model).outcome =
        .httpError 500 ("Failed to save uploaded file: " ++ e) ∧
      (upload_core env t (some e) table0 filename provider okey gkey model).trace =
        [initialUJob] ∧
      (upload_core env t (some e) table0 filename provider okey gkey model).slideOutcomes = [] := by
  unfold upload_core
  exact ⟨rfl, rfl, rfl⟩

theorem upload_core_conv_error (env : PipelineEnv) (t : ℚ) (table0 : UTable)
    (filename provider : String) (okey gkey : Option String) (model : String) (e : ConvError)
    (hc : pptx_to_pdf env.conv ⟨uploadTmpDir, filename⟩ (uploadTmpDir ++ "/pdf") = .error e) :
    (upload_core env t none table0 filename provider okey gkey model).outcome =
        .httpError 500 ("Failed to convert PPTX to PDF: " ++ e.msg) ∧
      (upload_core env t none table0 filename provider okey gkey model).trace = [initialUJob] ∧
      (upload_core env t none table0 filename provider okey gkey model).slideOutcomes = [] := by
  unfold upload_core
  rw [hc]
  exact ⟨rfl, rfl, rfl⟩

theorem upload_core_raster_error (env : PipelineEnv) (t : ℚ) (table0 : UTable)
    (filename provider : String) (okey gkey : Option String) (model : String) (pdf : PyPath)
    (hc : pptx_to_pdf env.conv ⟨uploadTmpDir, filename⟩ (uploadTmpDir ++ "/pdf") = .ok pdf)
    (hr : env.raster.pageImages = []) :
    (upload_core env t none table0 filename provider okey gkey model).outcome =
        .httpError 500 "Failed to convert PDF to images: No images were generated from the PDF" ∧
      (upload_core env t none table0 filename provider okey gkey model).trace = [initialUJob] ∧
      (upload_core env t none table0 filename provider okey gkey model).slideOutcomes = [] := by
  unfold upload_core
  simp only [hc]
  rw [pdf_to_images_result_of_empty env.raster pdf (uploadTmpDir ++ "/images") hr]
  exact ⟨rfl, rfl, rfl⟩

theorem upload_core_success (env : PipelineEnv) (t : ℚ) (table0 : UTable)
    (filename provider : String) (okey gkey : Option String) (model : String) (pdf : PyPath)
    (hc : pptx_to_pdf env.conv ⟨uploadTmpDir, filename⟩ (uploadTmpDir ++ "/pdf") = .ok pdf)
    (hr : env.raster.pageImages ≠ []) :
    (upload_core env t none table0 filename provider okey gkey model).slideOutcomes =
        uploadSlides env provider okey gkey model 1 env.raster.pageImages ∧
      (upload_core env t none table0 filename provider okey gkey model).outcome =
        .success 100 "Processing completed successfully"
          ((uploadSlides env provider okey gkey model 1 env.raster.pageImages).map
            (fun o => o.entry)) ∧
      (upload_core env t none table0 filename provider okey gkey model).trace =
        initialUJob :: uploadFinalTrace
          ((uploadSlides env provider okey gkey model 1 env.raster.pageImages).map
            (fun o => o.entry)) := by
  unfold upload_core
  simp only [hc]
  rw [pdf_to_images_result_of_nonempty env.raster pdf (uploadTmpDir ++ "/images") hr]
  exact ⟨rfl, rfl, rfl⟩

theorem bgSlides_status (env : PipelineEnv) (provider : String) (okey gkey : Option String)
    (model : String) (total : Nat) :
    ∀ (l : List String) (idx : Nat) (job : BgJob),
      (∀ j ∈ (bgSlides env provider okey gkey model total idx l job).1, j.status = job.status) ∧
        (bgSlides env provider okey gkey model total idx l job).2.1.status = job.status
  | [], _, job => ⟨by simp [bgSlides], rfl⟩
  | x :: xs, idx, job => by
      have ih := bgSlides_status env provider okey gkey model total xs (idx + 1)
      rcases hex : env.extract x with e | raw
      · refine ⟨?_, ?_⟩
        · intro j hj
          simp only [bgSlides, hex, List.mem_cons, List.not_mem_nil, or_false] at hj
          rcases hj with h | h <;> subst h <;> rfl
        · simp only [bgSlides, hex]
      · refine ⟨?_, ?_⟩
        · intro j hj
          simp only [bgSlides, hex, List.mem_cons] at hj
          rcases hj with h | h | h | h
          · subst h; rfl
          · subst h; rfl
          · subst h; rfl
          · have hs := (ih _).1 j h
            exact hs
        · simp only [bgSlides, hex]
          exact (ih _).2

theorem bgSlides_last (env : PipelineEnv) (provider : String) (okey gkey : Option String)
    (model : String) (total : Nat) :
    ∀ (l : List String) (idx : Nat) (job : BgJob),
      (bgSlides env provider okey gkey model total idx l job).2.1 =
        ((bgSlides env provider okey gkey model total idx l job).1).getLastD job
  | [], _, _ => rfl
  | x :: xs, idx, job => by
      have ih := bgSlides_last env provider okey gkey model total xs (idx + 1)
      rcases hex : env.extract x with e | raw
      · simp only [bgSlides, hex]
        rfl
      · simp only [bgSlides, hex, List.getLastD_cons]
        exact ih _

theorem pfProgress_mono (idx total : Nat) :
    pfProgress idx total ≤ pfProgress (idx + 1) total := by
  unfold pfProgress
  have h : idx * 60 ≤ (idx + 1) * 60 := Nat.mul_le_mul_right 60 (Nat.le_succ idx)
  exact Nat.add_le_add_left (Nat.div_le_div_right h) 20

theorem pfProgress_le_80 (idx total : Nat) (h : idx ≤ total) (ht : 0 < total) :
    pfProgress idx total ≤ 80 := by
  unfold pfProgress
  have h1 : idx * 60 ≤ total * 60 := Nat.mul_le_mul_right 60 h
  have h2 : idx * 60 / total ≤ total * 60 / total := Nat.div_le_div_right h1
  rw [Nat.mul_div_cancel_left 60 ht] at h2
  omega

theorem pfProgress_ge_20 (idx total : Nat) : 20 ≤ pfProgress idx total :=
  Nat.le_add_right 20 _

theorem bgSlides_chain (env : PipelineEnv) (provider : String) (okey gkey : Option String)
    (model : String) (total : Nat) :
    ∀ (l : List String) (idx : Nat) (job : BgJob),
      idx + l.length = total + 1 → 1 ≤ idx →
      job.progress ≤ pfProgress idx total → job.progress ≤ 80 →
      List.Chain' (· ≤ ·)
        ((job :: (bgSlides env provider okey gkey model total idx l job).1).map
          (fun j => j.progress)) ∧
        (bgSlides env provider okey gkey model total idx l job).2.1.progress ≤ 80
  | [], _, _ => fun _ _ _ h80 => ⟨List.chain'_singleton _, h80⟩
  | x :: xs, idx, job => by
      intro hlen hidx hle h80
      rw [List.length_cons] at hlen
      have hidxtot : idx ≤ total := by omega
      have htot : 0 < total := Nat.lt_of_lt_of_le hidx hidxtot
      rcases hex : env.extract x with e | raw
      · simp only [bgSlides, hex, List.map_cons]
        refine ⟨?_, pfProgress_le_80 idx total hidxtot htot⟩
        rw [List.chain'_cons, List.chain'_cons]
        exact ⟨hle, le_refl _, List.chain'_singleton _⟩
      · have hrec := bgSlides_chain env provider okey gkey model total xs (idx + 1)
          { status := job.status, progress := pfProgress idx total,
            message := "Processing slide " ++ toString idx ++ "/" ++ toString total ++ "...",
            results := job.results ++ [bgSlideEntry env provider okey gkey model idx raw] }
          (by omega) (by omega) (pfProgress_mono idx total)
          (pfProgress_le_80 idx total hidxtot htot)
        simp only [bgSlides, hex, List.map_cons]
        refine ⟨?_, hrec.2⟩
        rw [List.chain'_cons, List.chain'_cons, List.chain'_cons]
        exact ⟨hle, le_refl _, le_refl _, hrec.1⟩

theorem bgSlideEntry_slide_num (env : PipelineEnv) (provider : String)
    (okey gkey : Option String) (model : String) (idx : Nat) (raw : String) :
    (bgSlideEntry env provider okey gkey model idx raw).slide_num = idx := by
  unfold bgSlideEntry
  cases (uSummarize env provider okey gkey model raw).result <;> rfl

theorem bgSlides_final_results (env : PipelineEnv) (provider : String)
    (okey gkey : Option String) (model : String) (total : Nat) :
    ∀ (l : List String) (idx : Nat) (job : BgJob),
      (bgSlides env provider okey gkey model total idx l job).2.1.results =
        job.results ++ bgResultsOf env provider okey gkey model idx l
  | [], _, _ => by simp [bgSlides, bgResultsOf]
  | x :: xs, idx, job => by
      rcases hex : env.extract x with e | raw
      · simp [bgSlides, bgResultsOf, hex]
      · have ih := bgSlides_final_results env provider okey gkey model total xs (idx + 1)
        simp only [bgSlides, bgResultsOf, hex]
        rw [ih _]
        simp

theorem bgSlides_trace_results_le (env : PipelineEnv) (provider : String)
    (okey gkey : Option String) (model : String) (total : Nat) :
    ∀ (l : List String) (idx : Nat) (job : BgJob),
      ∀ j ∈ (bgSlides env provider okey gkey model total idx l job).1,
        j.results.length ≤ job.results.length + l.length
  | [], _, _ => by simp [bgSlides]
  | x :: xs, idx, job => by
      intro j hj
      rcases hex : env.extract x with e | raw
      · simp only [bgSlides, hex, List.mem_cons, List.not_mem_nil, or_false] at hj
        rcases hj with h | h <;> subst h <;> simp
      · simp only [bgSlides, hex, List.mem_cons] at hj
        rw [List.length_cons]
        rcases hj with h | h | h | h
        · subst h; simp
        · subst h; simp
        · subst h; simp
        · have hr := bgSlides_trace_results_le env provider okey gkey model total xs (idx + 1) _ j h
          simp only [List.length_append, List.length_cons] at hr
          simp only [List.length_nil] at hr
          omega

theorem bgSlides_ab_none (env : PipelineEnv) (provider : String)
    (okey gkey : Option String) (model : String) (total : Nat) :
    ∀ (l : List String) (idx : Nat) (job : BgJob),
      (∀ x ∈ l, ∃ raw, env.extract x = .ok raw) →
      (bgSlides env provider okey gkey model total idx l job).2.2 = none
  | [], _, _ => fun _ => rfl
  | x :: xs, idx, job => by
      intro hex
      obtain ⟨raw, hraw⟩ := hex x (List.mem_cons_self x xs)
      have ih := bgSlides_ab_none env provider okey gkey model total xs (idx + 1)
      simp only [bgSlides, hraw]
      exact ih _ (fun y hy => hex y (List.mem_cons_of_mem x hy))

theorem bgResultsOf_map_slide (env : PipelineEnv) (provider : String)
    (okey gkey : Option String) (model : String) :
    ∀ (l : List String) (idx : Nat),
      (∀ x ∈ l, ∃ raw, env.extract x = .ok raw) →
      (bgResultsOf env provider okey gkey model idx l).map (fun r => r.slide_num) =
        List.range' idx l.length
  | [], _ => fun _ => rfl
  | x :: xs, idx => by
      intro hex
      obtain ⟨raw, hraw⟩ := hex x (List.mem_cons_self x xs)
      have ih := bgResultsOf_map_slide env provider okey gkey model xs (idx + 1)
        (fun y hy => hex y (List.mem_cons_of_mem x hy))
      simp only [bgResultsOf, hraw, List.map_cons, List.length_cons, List.range'_succ,
        bgSlideEntry_slide_num, ih]

theorem insertStr_length (s : String) : ∀ l : List String, (insertStr s l).length = l.length + 1
  | [] => rfl
  | t :: ts => by
      unfold insertStr
      cases compare s t <;> simp [insertStr_length s ts]

theorem pySortedStr_length : ∀ l : List String, (pySortedStr l).length = l.length
  | [] => rfl
  | s :: ss => by
      unfold pySortedStr
      rw [insertStr_length, pySortedStr_length ss]
      simp

theorem insertStr_mem (s : String) : ∀ (l : List String) (x : String),
    x ∈ insertStr s l ↔ x = s ∨ x ∈ l
  | [], x => by simp [insertStr]
  | t :: ts, x => by
      unfold insertStr
      cases compare s t <;> simp [insertStr_mem s ts, List.mem_cons] <;> tauto

theorem pySortedStr_mem : ∀ (l : List String) (x : String), x ∈ pySortedStr l ↔ x ∈ l
  | [], x => Iff.rfl
  | s :: ss, x => by
      unfold pySortedStr
      rw [insertStr_mem, pySortedStr_mem ss, List.mem_cons]

theorem bgSlides_trace_status_replicate (env : PipelineEnv) (provider : String)
    (okey gkey : Option String) (model : String) (total : Nat) (l : List String)
    (idx : Nat) (job : BgJob) :
    ((bgSlides env provider okey gkey model total idx l job).1).map (fun j => j.status) =
      List.replicate ((bgSlides env provider okey gkey model total idx l job).1).length
        job.status := by
  apply List.eq_replicate_iff.mpr
  refine ⟨by simp, ?_⟩
  intro b hb
  rw [List.mem_map] at hb
  obtain ⟨j, hj, hjb⟩ := hb
  rw [← hjb]
  exact (bgSlides_status env provider okey gkey model total l idx job).1 j hj

theorem process_file_conv_error (env : PipelineEnv) (pptx : PyPath) (wd provider : String)
    (okey gkey : Option String) (model : String) (j0 : BgJob) (e : ConvError)
    (hc : pptx_to_pdf env.conv pptx (wd ++ "/pdf") = .error e) :
    process_file env pptx wd provider okey gkey model j0 =
      [j0, { j0 with status := "processing" },
       { j0 with status := "processing", message := "Converting to PDF..." },
       { j0 with status := "error", message := "Converting to PDF..." },
       { j0 with status := "error", message := e.msg }] := by
  unfold process_file
  rw [hc]

theorem process_file_raster_error (env : PipelineEnv) (pptx : PyPath) (wd provider : String)
    (okey gkey : Option String) (model : String) (j0 : BgJob) (pdf : PyPath)
    (hc : pptx_to_pdf env.conv pptx (wd ++ "/pdf") = .ok pdf)
    (hr : env.raster.pageImages = []) :
    process_file env pptx wd provider okey gkey model j0 =
      [j0, { j0 with status := "processing" },
       { j0 with status := "processing", message := "Converting to PDF..." },
       { j0 with status := "processing", message := "Converting to PDF...", progress := 20 },
       { j0 with
           status := "processing", progress := 20,
           message := "Converting PDF to images..." },
       { j0 with
           status := "error", progress := 20,
           message := "Converting PDF to images..." },
       { j0 with
           status := "error", progress := 20,
           message := "No images were generated from the PDF" }] := by
  unfold process_file
  rw [hc]
  dsimp only
  rw [pdf_to_images_result_of_empty env.raster pdf (wd ++ "/images") hr]

theorem process_file_completed_shape (env : PipelineEnv) (pptx : PyPath)
    (wd provider : String) (okey gkey : Option String) (model : String) (j0 : BgJob)
    (pdf : PyPath)
    (hc : pptx_to_pdf env.conv pptx (wd ++ "/pdf") = .ok pdf)
    (hr : env.raster.pageImages ≠ [])
    (hab : (bgSlides env provider okey gkey model (pySortedStr env.raster.pageImages).length
      1 (pySortedStr env.raster.pageImages) (bgJ4 j0)).2.2 = none) :
    process_file env pptx wd provider okey gkey model j0 =
      [j0, { j0 with status := "processing" },
       { j0 with status := "processing", message := "Converting to PDF..." },
       { j0 with status := "processing", message := "Converting to PDF...", progress := 20 },
       bgJ4 j0] ++
      (bgSlides env provider okey gkey model (pySortedStr env.raster.pageImages).length 1
        (pySortedStr env.raster.pageImages) (bgJ4 j0)).1 ++
      [{ (bgSlides env provider okey gkey model (pySortedStr env.raster.pageImages).length 1
            (pySortedStr env.raster.pageImages) (bgJ4 j0)).2.1 with status := "completed" },
       { (bgSlides env provider okey gkey model (pySortedStr env.raster.pageImages).length 1
            (pySortedStr env.raster.pageImages) (bgJ4 j0)).2.1 with
           status := "completed", progress := 100 },
       { (bgSlides env provider okey gkey model (pySortedStr env.raster.pageImages).length 1
            (pySortedStr env.raster.pageImages) (bgJ4 j0)).2.1 with
           status := "completed", progress := 100, message := "Processing complete!" }] := by
  simp only [bgJ4] at hab ⊢
  unfold process_file
  rw [hc]
  dsimp only
  rw [pdf_to_images_result_of_nonempty env.raster pdf (wd ++ "/images") hr]
  dsimp only
  rw [hab]

theorem process_file_completed (env : PipelineEnv) (pptx : PyPath) (wd provider : String)
    (okey gkey : Option String) (model : String) (j0 : BgJob) (pdf : PyPath)
    (hc : pptx_to_pdf env.conv pptx (wd ++ "/pdf") = .ok pdf)
    (hr : env.raster.pageImages ≠ [])
    (hex : ∀ x ∈ env.raster.pageImages, ∃ raw, env.extract x = .ok raw) :
    process_file env pptx wd provider okey gkey model j0 =
      [j0, { j0 with status := "processing" },
       { j0 with status := "processing", message := "Converting to PDF..." },
       { j0 with status := "processing", message := "Converting to PDF...", progress := 20 },
       bgJ4 j0] ++
      (bgSlides env provider okey gkey model (pySortedStr env.raster.pageImages).length 1
        (pySortedStr env.raster.pageImages) (bgJ4 j0)).1 ++
      [{ (bgSlides env provider okey gkey model (pySortedStr env.raster.pageImages).length 1
            (pySortedStr env.raster.pageImages) (bgJ4 j0)).2.1 with status := "completed" },
       { (bgSlides env provider okey gkey model (pySortedStr env.raster.pageImages).length 1
            (pySortedStr env.raster.pageImages) (bgJ4 j0)).2.1 with
           status := "completed", progress := 100 },
       { (bgSlides env provider okey gkey model (pySortedStr env.raster.pageImages).length 1
            (pySortedStr env.raster.pageImages) (bgJ4 j0)).2.1 with
           status := "completed", progress := 100, message := "Processing complete!" }] := by
  have hex' : ∀ x ∈ pySortedStr env.raster.pageImages, ∃ raw, env.extract x = .ok raw :=
    fun x hx => hex x ((pySortedStr_mem env.raster.pageImages x).mp hx)
  exact process_file_completed_shape env pptx wd provider okey gkey model j0 pdf hc hr
    (bgSlides_ab_none env provider okey gkey model _ _ 1 _ hex')

theorem process_file_abort (env : PipelineEnv) (pptx : PyPath) (wd provider : String)
    (okey gkey : Option String) (model : String) (j0 : BgJob) (pdf : PyPath) (e : String)
    (hc : pptx_to_pdf env.conv pptx (wd ++ "/pdf") = .ok pdf)
    (hr : env.raster.pageImages ≠ [])
    (hab : (bgSlides env provider okey gkey model (pySortedStr env.raster.pageImages).length 1
      (pySortedStr env.raster.pageImages) (bgJ4 j0)).2.2 = some e) :
    process_file env pptx wd provider okey gkey model j0 =
      [j0, { j0 with status := "processing" },
       { j0 with status := "processing", message := "Converting to PDF..." },
       { j0 with status := "processing", message := "Converting to PDF...", progress := 20 },
       bgJ4 j0] ++
      (bgSlides env provider okey gkey model (pySortedStr env.raster.pageImages).length 1
        (pySortedStr env.raster.pageImages) (bgJ4 j0)).1 ++
      [{ (bgSlides env provider okey gkey model (pySortedStr env.raster.pageImages).length 1
            (pySortedStr env.raster.pageImages) (bgJ4 j0)).2.1 with status := "error" },
       { (bgSlides env provider okey gkey model (pySortedStr env.raster.pageImages).length 1
            (pySortedStr env.raster.pageImages) (bgJ4 j0)).2.1 with
           status := "error", message := e }] := by
  simp only [bgJ4] at hab ⊢
  unfold process_file
  rw [hc]
  dsimp only
  rw [pdf_to_images_result_of_nonempty env.raster pdf (wd ++ "/images") hr]
  dsimp only
  rw [hab]

theorem bgResultsOf_length_le (env : PipelineEnv) (provider : String)
    (okey gkey : Option String) (model : String) :
    ∀ (l : List String) (idx : Nat),
      (bgResultsOf env provider okey gkey model idx l).length ≤ l.length
  | [], _ => Nat.le_refl 0
  | x :: xs, idx => by
      unfold bgResultsOf
      cases env.extract x with
      | error e => simp
      | ok raw =>
          have ih := bgResultsOf_length_le env provider okey gkey model xs (idx + 1)
          simp only [List.length_cons]
          omega

/-! ## Concrete fixtures used by witnesses and counterexamples -/

/-! ## Claim theorems -/

/-- C1: main.py line 14 imports extract_text from app.utils, but utils.py
defines no function of that name, so loading the application module fails
with ImportError before any route handler can run, and every call site of
extract_text is unresolvable. -/
theorem C1_extract_text_import_unresolvable :
    "extract_text" ∈ mainUtilsImportList ∧
      "extract_text" ∉ utilsDefinedNames ∧
      loadMainModule = .error "cannot import name extract_text from app.utils" ∧
      canServeRequests = false := by
  decide

theorem summarize_openai_no_file (env : RemoteEnv) (path : String) (key : Option String)
    (h : env.readFile path = none) :
    summarize_openai env path key =
      { remoteCalls := 0, result := .error ("No such file or directory: " ++ path) } := by
  simp [summarize_openai, h]

theorem summarize_gemini_no_image (env : RemoteEnv) (path : String) (key : Option String)
    (model : String) (hk : pyFalsy key = false) (h : env.imageOpens path = false) :
    summarize_gemini env path key model =
      { remoteCalls := 0, result := .error ("cannot identify image file " ++ path) } := by
  simp [summarize_gemini, hk, h]

theorem uSummarize_empty_no_call (env : PipelineEnv) (provider : String)
    (okey gkey : Option String) (model : String)
    (hread : env.remote.readFile "" = none)
    (himg : env.remote.imageOpens "" = false) :
    (uSummarize env provider okey gkey model "").remoteCalls = 0 ∧
      ∃ e, (uSummarize env provider okey gkey model "").result = .error e := by
  unfold uSummarize
  cases hp : provider == "gemini"
  · rw [if_neg (by simp [hp])]
    rw [summarize_openai_no_file env.remote "" okey hread]
    exact ⟨rfl, _, rfl⟩
  · rw [if_pos (by simp [hp])]
    cases hk : pyFalsy gkey
    · rw [summarize_gemini_no_image env.remote "" gkey model hk himg]
      exact ⟨rfl, _, rfl⟩
    · refine ⟨?_, "GEMINI_API_KEY not set", ?_⟩ <;> simp [summarize_gemini, hk]

/-- C6: pptx_to_pdf explicitly checks that soffice is resolvable and raises
the dedicated missing-dependency RuntimeError when it is not; on success the
returned path's filename is the input stem with a .pdf extension and that
file exists at return time; when the expected file does not exist it raises
a FileNotFoundError. -/
theorem C6_pptx_to_pdf_contract (env : ConvEnv) (pptx_path : PyPath) (out_dir : String) :
    (env.sofficeResolvable = false →
      pptx_to_pdf env pptx_path out_dir = .error (.runtimeError missingDepMsg)) ∧
      (∀ p, pptx_to_pdf env pptx_path out_dir = .ok p →
        p.name = pyStem pptx_path.name ++ ".pdf" ∧ env.fileExists p.render = true) ∧
      (env.sofficeResolvable = true → env.convReturncode = 0 →
        env.fileExists (PyPath.render ⟨out_dir, pyWithSuffix pptx_path.name ".pdf"⟩) = false →
        pptx_to_pdf env pptx_path out_dir =
          .error (.fileNotFoundError ("PDF file not created at " ++
            PyPath.render ⟨out_dir, pyWithSuffix pptx_path.name ".pdf"⟩))) := by
  refine ⟨?_, ?_, ?_⟩
  · intro h
    simp [pptx_to_pdf, h]
  · intro p hp
    unfold pptx_to_pdf at hp
    split at hp
    · simp at hp
    · split at hp
      · simp at hp
      · dsimp only at hp
        split at hp
        · simp at hp
        · rename_i hex
          simp only [Except.ok.injEq] at hp
          subst hp
          refine ⟨rfl, ?_⟩
          simpa using hex
  · intro h1 h2 h3
    simp only [PyPath.render] at h3
    simp [pptx_to_pdf, h1, h2, h3, PyPath.render]

theorem C6_pptx_to_pdf_contract_witness :
    convNoSoffice.sofficeResolvable = false ∧
      pptx_to_pdf convNoSoffice ⟨"/tmp/upload", "deck.pptx"⟩ "/tmp/upload/pdf" =
        .error (.runtimeError missingDepMsg) ∧
      pptx_to_pdf convOkEnv ⟨"/tmp/upload", "deck.pptx"⟩ "/tmp/upload/pdf" =
        .ok ⟨"/tmp/upload/pdf", "deck.pdf"⟩ ∧
      (⟨"/tmp/upload/pdf", "deck.pdf"⟩ : PyPath).name = pyStem "deck.pptx" ++ ".pdf" ∧
      convOkEnv.fileExists (PyPath.render ⟨"/tmp/upload/pdf", "deck.pdf"⟩) = true := by
  refine ⟨by decide, ?_, by decide, ?_, ?_⟩
  · exact (C6_pptx_to_pdf_contract convNoSoffice ⟨"/tmp/upload", "deck.pptx"⟩
      "/tmp/upload/pdf").1 (by decide)
  · exact ((C6_pptx_to_pdf_contract convOkEnv ⟨"/tmp/upload", "deck.pptx"⟩
      "/tmp/upload/pdf").2.1 ⟨"/tmp/upload/pdf", "deck.pdf"⟩ (by decide)).1
  · exact ((C6_pptx_to_pdf_contract convOkEnv ⟨"/tmp/upload", "deck.pptx"⟩
      "/tmp/upload/pdf").2.1 ⟨"/tmp/upload/pdf", "deck.pdf"⟩ (by decide)).2

/-- C7: pdf_to_images always creates the output directory and asks the
rasterizer for 200 DPI PNG output into it, one image per page; zero produced
images raise the empty-output RuntimeError rather than returning an empty
list, and a successful return has one path per page image. -/
theorem C7_pdf_to_images_contract (env : RasterEnv) (pdf_path : PyPath) (out_dir : String) :
    (pdf_to_images env pdf_path out_dir).call.dpi = 200 ∧
      (pdf_to_images env pdf_path out_dir).call.fmt = "png" ∧
      (pdf_to_images env pdf_path out_dir).call.output_folder = out_dir ∧
      (pdf_to_images env pdf_path out_dir).madeOutputDir = true ∧
      (env.pageImages = [] →
        (pdf_to_images env pdf_path out_dir).result =
          .error "No images were generated from the PDF") ∧
      (∀ paths, (pdf_to_images env pdf_path out_dir).result = .ok paths →
        paths.length = env.pageImages.length) := by
  refine ⟨?_, ?_, ?_, ?_, ?_, ?_⟩
  · unfold pdf_to_images
    dsimp only
    split <;> rfl
  · unfold pdf_to_images
    dsimp only
    split <;> rfl
  · unfold pdf_to_images
    dsimp only
    split <;> rfl
  · unfold pdf_to_images
    dsimp only
    split <;> rfl
  · exact fun h => pdf_to_images_result_of_empty env pdf_path out_dir h
  · intro paths hp
    cases he : env.pageImages with
    | nil =>
        rw [pdf_to_images_result_of_empty env pdf_path out_dir he] at hp
        simp at hp
    | cons a l =>
        rw [pdf_to_images_result_of_nonempty env pdf_path out_dir (by simp [he])] at hp
        simp only [Except.ok.injEq] at hp
        rw [← hp, he]

theorem C7_pdf_to_images_contract_witness :
    (rasterNone.pageImages = [] ∧
      (pdf_to_images rasterNone ⟨"/tmp/upload/pdf", "deck.pdf"⟩ "/tmp/upload/images").result =
        .error "No images were generated from the PDF") ∧
      (pdf_to_images raster2 ⟨"/tmp/upload/pdf", "deck.pdf"⟩ "/tmp/upload/images").result =
        .ok ["/tmp/upload/images/page1.png", "/tmp/upload/images/page2.png"] ∧
      (["/tmp/upload/images/page1.png", "/tmp/upload/images/page2.png"] : List String).length =
        raster2.pageImages.length ∧
      (pdf_to_images raster2 ⟨"/tmp/upload/pdf", "deck.pdf"⟩ "/tmp/upload/images").call.dpi =
        200 := by
  refine ⟨⟨by decide, ?_⟩, by decide, ?_, ?_⟩
  · exact (C7_pdf_to_images_contract rasterNone ⟨"/tmp/upload/pdf", "deck.pdf"⟩
      "/tmp/upload/images").2.2.2.2.1 (by decide)
  · exact (C7_pdf_to_images_contract raster2 ⟨"/tmp/upload/pdf", "deck.pdf"⟩
      "/tmp/upload/images").2.2.2.2.2 _ (by decide)
  · exact (C7_pdf_to_images_contract raster2 ⟨"/tmp/upload/pdf", "deck.pdf"⟩
      "/tmp/upload/images").1

/-- C9: both summarizers open their first argument as an image file on disk
(summarize_openai reads and base64-encodes it, summarize_gemini opens it
via PIL), while the per-slide loop of upload_file passes the extracted TEXT
as that first argument; hence whenever the extracted text is not the path
of a readable image file, the summarization call raises before any remote
request and the slide's stored summary becomes the inline error marker. -/
theorem C9_summarizers_get_text_not_path :
    (∀ (env : RemoteEnv) (path : String) (key : Option String),
      env.readFile path = none →
      summarize_openai env path key =
        { remoteCalls := 0, result := .error ("No such file or directory: " ++ path) }) ∧
      (∀ (env : RemoteEnv) (path : String) (key : Option String) (model : String),
        pyFalsy key = false → env.imageOpens path = false →
        summarize_gemini env path key model =
          { remoteCalls := 0, result := .error ("cannot identify image file " ++ path) }) ∧
      (∀ (env : PipelineEnv) (provider : String) (okey gkey : Option String)
          (model : String) (i : Nat) (img text : String),
        env.extract img = .ok text → (provider == "gemini") = false →
        env.remote.readFile text = none →
        (uploadSlide env provider okey gkey model i img).entry.summary =
            openaiErrMarker i ("No such file or directory: " ++ text) ∧
          (uploadSlide env provider okey gkey model i img).remoteCalls = 0) ∧
      (∀ (env : PipelineEnv) (okey gkey : Option String) (model : String) (i : Nat)
          (img text : String),
        env.extract img = .ok text → pyFalsy gkey = false →
        env.remote.imageOpens text = false →
        (uploadSlide env "gemini" okey gkey model i img).entry.summary =
            geminiErrMarker i ("cannot identify image file " ++ text) ∧
          (uploadSlide env "gemini" okey gkey model i img).remoteCalls = 0) := by
  refine ⟨summarize_openai_no_file, summarize_gemini_no_image, ?_, ?_⟩
  · intro env provider okey gkey model i img text hex hp hread
    rw [uploadSlide_extract_ok env provider okey gkey model i img text hex]
    have hu : uSummarize env provider okey gkey model text =
        summarize_openai env.remote text okey := by
      simp [uSummarize, hp]
    have ho := summarize_openai_no_file env.remote text okey hread
    constructor
    · show pyOr (uploadSummary env provider okey gkey model i text) "[No summary available]" =
        openaiErrMarker i ("No such file or directory: " ++ text)
      unfold uploadSummary
      rw [hu, ho]
      simp only [hp, Bool.false_eq_true, if_false]
      exact pyOr_of_ne_empty _ _ (openaiErrMarker_ne_empty i _)
    · show (uSummarize env provider okey gkey model text).remoteCalls = 0
      rw [hu, ho]
  · intro env okey gkey model i img text hex hk himg
    rw [uploadSlide_extract_ok env "gemini" okey gkey model i img text hex]
    have hu : uSummarize env "gemini" okey gkey model text =
        summarize_gemini env.remote text gkey model := by
      simp [uSummarize]
    have hg := summarize_gemini_no_image env.remote text gkey model hk himg
    constructor
    · show pyOr (uploadSummary env "gemini" okey gkey model i text) "[No summary available]" =
        geminiErrMarker i ("cannot identify image file " ++ text)
      unfold uploadSummary
      rw [hu, hg]
      simp only [if_pos]
      exact pyOr_of_ne_empty _ _ (geminiErrMarker_ne_empty i _)
    · show (uSummarize env "gemini" okey gkey model text).remoteCalls = 0
      rw [hu, hg]

theorem C9_summarizers_get_text_not_path_witness :
    remoteNoFiles.readFile "slide text" = none ∧
      envUnreadableText.extract "/tmp/upload/images/page1.png" = .ok "slide text" ∧
      summarize_openai remoteNoFiles "slide text" (some "sk") =
        { remoteCalls := 0, result := .error "No such file or directory: slide text" } ∧
      (uploadSlide envUnreadableText "openai" (some "sk") none "gem-model" 1
          "/tmp/upload/images/page1.png").entry.summary =
        openaiErrMarker 1 "No such file or directory: slide text" ∧
      (uploadSlide envUnreadableText "gemini" none (some "gk") "gem-model" 1
          "/tmp/upload/images/page1.png").entry.summary =
        geminiErrMarker 1 "cannot identify image file slide text" := by
  refine ⟨by decide, by decide, ?_, ?_, ?_⟩
  · have h := C9_summarizers_get_text_not_path.1 remoteNoFiles "slide text" (some "sk")
      (by decide)
    rw [h]
    decide
  · have h := (C9_summarizers_get_text_not_path.2.2.1 envUnreadableText "openai" (some "sk")
      none "gem-model" 1 "/tmp/upload/images/page1.png" "slide text" (by decide) (by decide)
      (by decide)).1
    rw [h]
    decide
  · have h := (C9_summarizers_get_text_not_path.2.2.2 envUnreadableText none (some "gk")
      "gem-model" 1 "/tmp/upload/images/page1.png" "slide text" (by decide) (by decide)
      (by decide)).1
    rw [h]
    decide

/-- C2 (amended): for every slide whose extracted text is the empty
string, the remote summarization API is indeed not invoked for that slide -
but not through a short-circuit: the per-slide loop still enters the
selected summarizer with the empty string, the call raises at the
image-file open before any remote request (the empty string is not a
readable image path), and the stored summary is the inline provider error
marker, never a fixed placeholder no text detected - no such placeholder
exists in the code. -/
theorem C2_empty_text_error_marker_no_remote_call (env : PipelineEnv) (provider : String)
    (okey gkey : Option String) (model : String) (i : Nat) (img : String)
    (hex : env.extract img = .ok "")
    (hread : env.remote.readFile "" = none)
    (himg : env.remote.imageOpens "" = false) :
    (uploadSlide env provider okey gkey model i img).summarizerEntered = true ∧
      (uploadSlide env provider okey gkey model i img).remoteCalls = 0 ∧
      (∃ e, (uploadSlide env provider okey gkey model i img).entry.summary =
        (if provider == "gemini" then geminiErrMarker i e else openaiErrMarker i e)) ∧
      (uploadSlide env provider okey gkey model i img).entry.summary ≠
        "no text detected" := by
  rw [uploadSlide_extract_ok env provider okey gkey model i img "" hex]
  obtain ⟨hc0, e, herr⟩ :=
    uSummarize_empty_no_call env provider okey gkey model hread himg
  have hsum : uploadSummary env provider okey gkey model i "" =
      if provider == "gemini" then geminiErrMarker i e else openaiErrMarker i e := by
    unfold uploadSummary
    rw [herr]
  have hne : (if provider == "gemini" then geminiErrMarker i e
      else openaiErrMarker i e) ≠ "" := by
    cases hp : provider == "gemini"
    · rw [if_neg (by simp [hp])]
      exact openaiErrMarker_ne_empty i e
    · rw [if_pos (by simp [hp])]
      exact geminiErrMarker_ne_empty i e
  have hfull : pyOr (uploadSummary env provider okey gkey model i "")
      "[No summary available]" =
      if provider == "gemini" then geminiErrMarker i e else openaiErrMarker i e := by
    rw [hsum]
    exact pyOr_of_ne_empty _ _ hne
  refine ⟨rfl, hc0, ⟨e, hfull⟩, ?_⟩
  show pyOr (uploadSummary env provider okey gkey model i "") "[No summary available]" ≠
    "no text detected"
  rw [hfull]
  cases hp : provider == "gemini"
  · rw [if_neg (by simp [hp])]
    exact openaiErrMarker_ne_no_text i e
  · rw [if_pos (by simp [hp])]
    exact geminiErrMarker_ne_no_text i e

theorem C2_empty_text_error_marker_no_remote_call_witness :
    envEmptyText.extract "/tmp/upload/images/page1.png" = .ok "" ∧
      envEmptyText.remote.readFile "" = none ∧
      envEmptyText.remote.imageOpens "" = false ∧
      (uploadSlide envEmptyText "openai" (some "sk") none "gem-model" 1
        "/tmp/upload/images/page1.png").remoteCalls = 0 ∧
      (uploadSlide envEmptyText "openai" (some "sk") none "gem-model" 1
        "/tmp/upload/images/page1.png").entry.summary ≠ "no text detected" := by
  refine ⟨by decide, by decide, by decide, ?_, ?_⟩
  · exact (C2_empty_text_error_marker_no_remote_call envEmptyText "openai" (some "sk")
      none "gem-model" 1 "/tmp/upload/images/page1.png" (by decide) (by decide)
      (by decide)).2.1
  · exact (C2_empty_text_error_marker_no_remote_call envEmptyText "openai" (some "sk")
      none "gem-model" 1 "/tmp/upload/images/page1.png" (by decide) (by decide)
      (by decide)).2.2.2

/-- C2 counterexample: a full upload_file run over a slide whose extracted
text is the empty string, on a filesystem where (as in CPython) opening the
empty path fails.  Contrary to the claim, the slide's stored summary is the
inline OpenAI error marker, not the fixed placeholder no text detected
(and, consistently with the claim's other half, zero remote requests are
issued - the call raises at the file open). -/
theorem C2_counterexample :
    (upload_file envEmptyText 7 none emptyUTable "deck.pptx" "openai" (some "sk") none
        "gem-model").slideOutcomes.map
        (fun o => (o.entry.text, o.entry.summary, o.remoteCalls)) =
      [("", openaiErrMarker 1 "No such file or directory: ", 0)] ∧
      openaiErrMarker 1 "No such file or directory: " ≠ "no text detected" := by
  decide

theorem getLastD_append_three {α : Type} (A B : List α) (a b c d : α) :
    (A ++ B ++ [a, b, c]).getLastD d = c := by
  have h : A ++ B ++ [a, b, c] = (A ++ B ++ [a, b]) ++ [c] := by simp
  rw [h, List.getLastD_concat]

/-- C4 (amended): in both pipeline variants a summarization failure for
slide k yields an appended entry whose summary is the inline error marker,
processing continues (one entry per slide), and after the last slide the
job is completed with progress 100 unconditionally - even when every slide
recorded an error.  A successful summary is carried unchanged in
process_file; in upload_file it is carried unchanged except that an EMPTY
successful summary is replaced by the placeholder string
[No summary available] (main.py line 180), which is the one correction to
the claim. -/
theorem C4_slide_errors_isolated_completion_unconditional :
    (∀ (env : PipelineEnv) (provider : String) (okey gkey : Option String) (model : String)
        (i : Nat) (img text e : String),
      env.extract img = .ok text →
      (uSummarize env provider okey gkey model text).result = .error e →
      (uploadSlide env provider okey gkey model i img).entry =
        { slide := i, text := text,
          summary := if provider == "gemini" then geminiErrMarker i e
            else openaiErrMarker i e }) ∧
      (∀ (env : PipelineEnv) (provider : String) (okey gkey : Option String) (model : String)
          (i : Nat) (img text s : String),
        env.extract img = .ok text →
        (uSummarize env provider okey gkey model text).result = .ok s →
        (uploadSlide env provider okey gkey model i img).entry =
          { slide := i, text := text, summary := pyOr s "[No summary available]" }) ∧
      (∀ (env : PipelineEnv) (t : ℚ) (table0 : UTable) (filename provider : String)
          (okey gkey : Option String) (model : String) (pdf : PyPath),
        pptx_to_pdf env.conv ⟨uploadTmpDir, filename⟩ (uploadTmpDir ++ "/pdf") = .ok pdf →
        env.raster.pageImages ≠ [] →
        (upload_core env t none table0 filename provider okey gkey model).trace.getLastD
            initialUJob =
          { status := "completed", progress := 100,
            message := "Processing completed successfully",
            results := (uploadSlides env provider okey gkey model 1
              env.raster.pageImages).map (fun o => o.entry) } ∧
          (uploadSlides env provider okey gkey model 1 env.raster.pageImages).length =
            env.raster.pageImages.length) ∧
      (∀ (env : PipelineEnv) (provider : String) (okey gkey : Option String) (model : String)
          (idx : Nat) (raw e : String),
        (uSummarize env provider okey gkey model raw).result = .error e →
        bgSlideEntry env provider okey gkey model idx raw =
          { slide_num := idx, summary := "Error: " ++ e, raw_text := raw }) ∧
      (∀ (env : PipelineEnv) (provider : String) (okey gkey : Option String) (model : String)
          (idx : Nat) (raw s : String),
        (uSummarize env provider okey gkey model raw).result = .ok s →
        bgSlideEntry env provider okey gkey model idx raw =
          { slide_num := idx, summary := s, raw_text := raw }) ∧
      (∀ (env : PipelineEnv) (pptx : PyPath) (wd provider : String)
          (okey gkey : Option String) (model : String) (j0 : BgJob) (pdf : PyPath),
        pptx_to_pdf env.conv pptx (wd ++ "/pdf") = .ok pdf →
        env.raster.pageImages ≠ [] →
        (∀ x ∈ env.raster.pageImages, ∃ raw, env.extract x = .ok raw) →
        ((process_file env pptx wd provider okey gkey model j0).getLastD
            initialBgJob).status = "completed" ∧
          ((process_file env pptx wd provider okey gkey model j0).getLastD
            initialBgJob).progress = 100 ∧
          ((process_file env pptx wd provider okey gkey model j0).getLastD
            initialBgJob).results =
            j0.results ++ bgResultsOf env provider okey gkey model 1
              (pySortedStr env.raster.pageImages) ∧
          (bgResultsOf env provider okey gkey model 1
            (pySortedStr env.raster.pageImages)).length = env.raster.pageImages.length) := by
  refine ⟨?_, ?_, ?_, ?_, ?_, ?_⟩
  · intro env provider okey gkey model i img text e hex hsum
    rw [uploadSlide_extract_ok env provider okey gkey model i img text hex]
    have hm : uploadSummary env provider okey gkey model i text =
        if provider == "gemini" then geminiErrMarker i e else openaiErrMarker i e := by
      unfold uploadSummary
      rw [hsum]
    have hne : (if provider == "gemini" then geminiErrMarker i e
        else openaiErrMarker i e) ≠ "" := by
      cases hp : provider == "gemini"
      · rw [if_neg (by simp [hp])]
        exact openaiErrMarker_ne_empty i e
      · rw [if_pos (by simp [hp])]
        exact geminiErrMarker_ne_empty i e
    rw [show pyOr (uploadSummary env provider okey gkey model i text)
        "[No summary available]" =
      if provider == "gemini" then geminiErrMarker i e else openaiErrMarker i e from by
        rw [hm]
        exact pyOr_of_ne_empty _ _ hne]
  · intro env provider okey gkey model i img text s hex hsum
    rw [uploadSlide_extract_ok env provider okey gkey model i img text hex]
    have hm : uploadSummary env provider okey gkey model i text = s := by
      unfold uploadSummary
      rw [hsum]
    rw [hm]
  · intro env t table0 filename provider okey gkey model pdf hc hr
    have hs := upload_core_success env t table0 filename provider okey gkey model pdf hc hr
    rw [hs.2.2]
    refine ⟨rfl, ?_⟩
    exact uploadSlides_length env provider okey gkey model env.raster.pageImages 1
  · intro env provider okey gkey model idx raw e hsum
    unfold bgSlideEntry
    rw [hsum]
  · intro env provider okey gkey model idx raw s hsum
    unfold bgSlideEntry
    rw [hsum]
  · intro env pptx wd provider okey gkey model j0 pdf hc hr hex
    have hp := process_file_completed env pptx wd provider okey gkey model j0 pdf hc hr hex
    rw [hp, getLastD_append_three]
    have hres := bgSlides_final_results env provider okey gkey model
      (pySortedStr env.raster.pageImages).length (pySortedStr env.raster.pageImages) 1
      (bgJ4 j0)
    have hex' : ∀ x ∈ pySortedStr env.raster.pageImages, ∃ raw, env.extract x = .ok raw :=
      fun x hx => hex x ((pySortedStr_mem env.raster.pageImages x).mp hx)
    have hlen : (bgResultsOf env provider okey gkey model 1
        (pySortedStr env.raster.pageImages)).length = env.raster.pageImages.length := by
      have hmap := bgResultsOf_map_slide env provider okey gkey model
        (pySortedStr env.raster.pageImages) 1 hex'
      have hl := congrArg List.length hmap
      simp only [List.length_map, List.length_range'] at hl
      rw [hl, pySortedStr_length]
    exact ⟨rfl, rfl, hres, hlen⟩

theorem C4_witness :
    (uSummarize envUnreadableText "openai" (some "sk") none "gem-model" "slide text").result =
        .error "No such file or directory: slide text" ∧
      (uploadSlide envUnreadableText "openai" (some "sk") none "gem-model" 3
          "/tmp/upload/images/page1.png").entry =
        { slide := 3, text := "slide text",
          summary := openaiErrMarker 3 "No such file or directory: slide text" } ∧
      envHappy2.raster.pageImages ≠ [] ∧
      ((process_file envHappy2 ⟨"/tmp/work", "deck.pptx"⟩ "/tmp/work" "openai" (some "sk")
          none "gem-model" initialBgJob).getLastD initialBgJob).status = "completed" ∧
      ((process_file envHappy2 ⟨"/tmp/work", "deck.pptx"⟩ "/tmp/work" "openai" (some "sk")
          none "gem-model" initialBgJob).getLastD initialBgJob).progress = 100 := by
  refine ⟨by decide, ?_, by decide, ?_, ?_⟩
  · have h := C4_slide_errors_isolated_completion_unconditional.1 envUnreadableText "openai"
      (some "sk") none "gem-model" 3 "/tmp/upload/images/page1.png" "slide text"
      "No such file or directory: slide text" (by decide) (by decide)
    rw [h]
    decide
  · exact (C4_slide_errors_isolated_completion_unconditional.2.2.2.2.2 envHappy2
      ⟨"/tmp/work", "deck.pptx"⟩ "/tmp/work" "openai" (some "sk") none "gem-model"
      initialBgJob ⟨"/tmp/work/pdf", "deck.pdf"⟩ (by decide) (by decide)
      (fun x _ => ⟨"slide text", rfl⟩)).1
  · exact (C4_slide_errors_isolated_completion_unconditional.2.2.2.2.2 envHappy2
      ⟨"/tmp/work", "deck.pptx"⟩ "/tmp/work" "openai" (some "sk") none "gem-model"
      initialBgJob ⟨"/tmp/work/pdf", "deck.pdf"⟩ (by decide) (by decide)
      (fun x _ => ⟨"slide text", rfl⟩)).2.1

/-- C4 counterexample: a summarization that SUCCEEDS but returns the empty
string is not carried unchanged by upload_file: line 180 stores the
placeholder [No summary available] instead of the returned empty summary. -/
theorem C4_counterexample :
    (uSummarize envBlankSummary "openai" (some "sk") none "gem-model" "slide text").result =
        .ok "" ∧
      (upload_file envBlankSummary 7 none emptyUTable "deck.pptx" "openai" (some "sk") none
          "gem-model").slideOutcomes.map (fun o => o.entry.summary) =
        ["[No summary available]"] ∧
      "[No summary available]" ≠ "" := by
  decide

/-- C3 (amended): when the conversion step raises, no variant ever records
status completed.  In the background variant process_file the entry becomes
status error with the (non-empty) diagnostic carried in message; in the
live upload_file route the handler re-raises HTTPException(500) with the
diagnostic in the HTTP detail and the job entry REMAINS at status
uploading - it never becomes error, which is the one correction to the
claim. -/
theorem C3_conversion_failure_terminal :
    (∀ (env : PipelineEnv) (t : ℚ) (table0 : UTable) (filename provider : String)
        (okey gkey : Option String) (model : String) (e : ConvError),
      pptx_to_pdf env.conv ⟨uploadTmpDir, filename⟩ (uploadTmpDir ++ "/pdf") = .error e →
      (upload_core env t none table0 filename provider okey gkey model).outcome =
          .httpError 500 ("Failed to convert PPTX to PDF: " ++ e.msg) ∧
        (∀ j ∈ (upload_core env t none table0 filename provider okey gkey model).trace,
          j.status = "uploading") ∧
        e.msg ≠ "") ∧
      (∀ (env : PipelineEnv) (pptx : PyPath) (wd provider : String)
          (okey gkey : Option String) (model : String) (j0 : BgJob) (e : ConvError),
        pptx_to_pdf env.conv pptx (wd ++ "/pdf") = .error e →
        j0.status ≠ "completed" →
        ((process_file env pptx wd provider okey gkey model j0).getLastD
            initialBgJob).status = "error" ∧
          ((process_file env pptx wd provider okey gkey model j0).getLastD
            initialBgJob).message = e.msg ∧
          e.msg ≠ "" ∧
          ∀ j ∈ process_file env pptx wd provider okey gkey model j0,
            j.status ≠ "completed") := by
  constructor
  · intro env t table0 filename provider okey gkey model e hc
    have h := upload_core_conv_error env t table0 filename provider okey gkey model e hc
    refine ⟨h.1, ?_, pptx_to_pdf_error_msg_ne_empty env.conv _ _ e hc⟩
    rw [h.2.1]
    intro j hj
    simp only [List.mem_singleton] at hj
    rw [hj]
    rfl
  · intro env pptx wd provider okey gkey model j0 e hc hj0
    have h := process_file_conv_error env pptx wd provider okey gkey model j0 e hc
    rw [h]
    refine ⟨rfl, rfl, pptx_to_pdf_error_msg_ne_empty env.conv _ _ e hc, ?_⟩
    intro j hj
    simp only [List.mem_cons, List.not_mem_nil, or_false] at hj
    rcases hj with h1 | h1 | h1 | h1 | h1 <;> subst h1
    · exact hj0
    · simp
    · simp
    · simp
    · simp

theorem C3_witness :
    pptx_to_pdf envConvFail.conv ⟨"/tmp/work", "deck.pptx"⟩ "/tmp/work/pdf" =
        .error (.runtimeError missingDepMsg) ∧
      initialBgJob.status ≠ "completed" ∧
      ((process_file envConvFail ⟨"/tmp/work", "deck.pptx"⟩ "/tmp/work" "openai" (some "sk")
          none "gem-model" initialBgJob).getLastD initialBgJob).status = "error" ∧
      ((process_file envConvFail ⟨"/tmp/work", "deck.pptx"⟩ "/tmp/work" "openai" (some "sk")
          none "gem-model" initialBgJob).getLastD initialBgJob).message =
        (ConvError.runtimeError missingDepMsg).msg ∧
      (ConvError.runtimeError missingDepMsg).msg ≠ "" := by
  have h := (C3_conversion_failure_terminal.2 envConvFail ⟨"/tmp/work", "deck.pptx"⟩
    "/tmp/work" "openai" (some "sk") none "gem-model" initialBgJob
    (.runtimeError missingDepMsg) (by decide) (by decide))
  exact ⟨by decide, by decide, h.1, h.2.1, h.2.2.1⟩

/-- C3 counterexample: with the conversion step failing, the live
upload_file route leaves the job entry at status uploading forever - the
recorded state never becomes error, contradicting the claim. -/
theorem C3_counterexample :
    (upload_file envConvFail 7 none emptyUTable "deck.pptx" "openai" (some "sk") none
        "gem-model").trace.map (fun j => j.status) = ["uploading"] ∧
      (upload_file envConvFail 7 none emptyUTable "deck.pptx" "openai" (some "sk") none
        "gem-model").table (jobIdOf 7) = some initialUJob ∧
      initialUJob.status ≠ "error" := by
  refine ⟨by decide, ?_, by decide⟩
  have hv := upload_file_valid envConvFail 7 none emptyUTable "deck.pptx" "openai"
    (some "sk") none "gem-model" (by decide) (by decide) (by decide)
  rw [hv, upload_core_table]
  rw [if_pos rfl]
  have h := upload_core_conv_error envConvFail 7 emptyUTable "deck.pptx" "openai"
    (some "sk") none "gem-model" (.runtimeError missingDepMsg) (by decide)
  rw [h.2.1]
  rfl

theorem bgJ4_status (j0 : BgJob) : (bgJ4 j0).status = "processing" := rfl

/-- C5 (amended): only the four status strings uploading / processing /
completed / error ever occur, but the two variants order them differently.
In the live upload_file route a job goes DIRECTLY from uploading to
completed (its status trace is uploading followed by zero or more completed
snapshots; processing is never recorded), which corrects the claim that
every completed job was earlier in state processing.  In the background
variant process_file the trace is uploading, then at least two processing
snapshots, then a terminal block of completed or error snapshots, so there
every run - completed ones included - passes through processing. -/
theorem C5_status_machine :
    (∀ (env : PipelineEnv) (t : ℚ) (saveErr : Option String) (table0 : UTable)
        (filename provider : String) (okey gkey : Option String) (model : String),
      ∃ k, (upload_core env t saveErr table0 filename provider okey gkey model).trace.map
          (fun j => j.status) = "uploading" :: List.replicate k "completed") ∧
      (∀ (env : PipelineEnv) (pptx : PyPath) (wd provider : String)
          (okey gkey : Option String) (model : String),
        ∃ k mm t,
          (process_file env pptx wd provider okey gkey model initialBgJob).map
              (fun j => j.status) =
            "uploading" :: (List.replicate k "processing" ++ List.replicate mm t) ∧
          (t = "completed" ∨ t = "error") ∧ 2 ≤ k ∧ 2 ≤ mm) ∧
      (∀ (env : PipelineEnv) (pptx : PyPath) (wd provider : String)
          (okey gkey : Option String) (model : String),
        "processing" ∈ (process_file env pptx wd provider okey gkey model initialBgJob).map
          (fun j => j.status)) := by
  have hb : ∀ (env : PipelineEnv) (pptx : PyPath) (wd provider : String)
      (okey gkey : Option String) (model : String),
      ∃ k mm t,
        (process_file env pptx wd provider okey gkey model initialBgJob).map
            (fun j => j.status) =
          "uploading" :: (List.replicate k "processing" ++ List.replicate mm t) ∧
        (t = "completed" ∨ t = "error") ∧ 2 ≤ k ∧ 2 ≤ mm := by
    intro env pptx wd provider okey gkey model
    rcases hc : pptx_to_pdf env.conv pptx (wd ++ "/pdf") with e | pdf
    · refine ⟨2, 2, "error", ?_, Or.inr rfl, le_refl 2, le_refl 2⟩
      rw [process_file_conv_error env pptx wd provider okey gkey model initialBgJob e hc]
      rfl
    · rcases he : env.raster.pageImages with _ | ⟨a, l⟩
      · refine ⟨4, 2, "error", ?_, Or.inr rfl, by omega, le_refl 2⟩
        rw [process_file_raster_error env pptx wd provider okey gkey model initialBgJob
          pdf hc he]
        rfl
      · have hne : env.raster.pageImages ≠ [] := by rw [he]; simp
        have hrep := bgSlides_trace_status_replicate env provider okey gkey model
          (pySortedStr env.raster.pageImages).length (pySortedStr env.raster.pageImages) 1
          (bgJ4 initialBgJob)
        rw [bgJ4_status] at hrep
        rcases hab : (bgSlides env provider okey gkey model
            (pySortedStr env.raster.pageImages).length 1
            (pySortedStr env.raster.pageImages) (bgJ4 initialBgJob)).2.2 with _ | e
        · refine ⟨4 + (bgSlides env provider okey gkey model
            (pySortedStr env.raster.pageImages).length 1
            (pySortedStr env.raster.pageImages) (bgJ4 initialBgJob)).1.length, 3,
            "completed", ?_, Or.inl rfl, by omega, by omega⟩
          rw [process_file_completed_shape env pptx wd provider okey gkey model
            initialBgJob pdf hc hne hab]
          simp only [List.map_append, hrep, List.replicate_add]
          simp [initialBgJob, bgJ4]
        · refine ⟨4 + (bgSlides env provider okey gkey model
            (pySortedStr env.raster.pageImages).length 1
            (pySortedStr env.raster.pageImages) (bgJ4 initialBgJob)).1.length, 2,
            "error", ?_, Or.inr rfl, by omega, le_refl 2⟩
          rw [process_file_abort env pptx wd provider okey gkey model initialBgJob pdf e
            hc hne hab]
          simp only [List.map_append, hrep, List.replicate_add]
          simp [initialBgJob, bgJ4]
  refine ⟨?_, hb, ?_⟩
  · intro env t saveErr table0 filename provider okey gkey model
    rcases saveErr with _ | e
    · rcases hc : pptx_to_pdf env.conv ⟨uploadTmpDir, filename⟩ (uploadTmpDir ++ "/pdf")
        with e | pdf
      · refine ⟨0, ?_⟩
        rw [(upload_core_conv_error env t table0 filename provider okey gkey model e hc).2.1]
        rfl
      · rcases he : env.raster.pageImages with _ | ⟨a, l⟩
        · refine ⟨0, ?_⟩
          rw [(upload_core_raster_error env t table0 filename provider okey gkey model pdf
            hc he).2.1]
          rfl
        · refine ⟨4, ?_⟩
          rw [(upload_core_success env t table0 filename provider okey gkey model pdf hc
            (by rw [he]; simp)).2.2]
          rfl
    · refine ⟨0, ?_⟩
      rw [(upload_core_save_error env t e table0 filename provider okey gkey model).2.1]
      rfl
  · intro env pptx wd provider okey gkey model
    obtain ⟨k, mm, t, hshape, _, hk, _⟩ := hb env pptx wd provider okey gkey model
    rw [hshape]
    have hm : "processing" ∈ List.replicate k "processing" :=
      List.mem_replicate.mpr ⟨by omega, rfl⟩
    exact List.mem_cons_of_mem _ (List.mem_append_left _ hm)

/-- C5 counterexample: a successful upload_file run whose job ends
completed although its recorded status was NEVER processing - the status
trace is uploading followed directly by completed. -/
theorem C5_counterexample :
    (upload_file envHappy 7 none emptyUTable "deck.pptx" "openai" (some "sk") none
        "gem-model").trace.map (fun j => j.status) =
      ["uploading", "completed", "completed", "completed", "completed"] ∧
      "processing" ∉ (upload_file envHappy 7 none emptyUTable "deck.pptx" "openai"
        (some "sk") none "gem-model").trace.map (fun j => j.status) ∧
      ((upload_file envHappy 7 none emptyUTable "deck.pptx" "openai" (some "sk") none
        "gem-model").trace.getLastD initialUJob).status = "completed" := by
  decide

theorem getLast?_cons_eq {α : Type} (a : α) :
    ∀ l : List α, (a :: l).getLast? = some (l.getLastD a)
  | [] => rfl
  | b :: l => by
      rw [List.getLast?_cons_cons, getLast?_cons_eq b l, List.getLastD_cons]

theorem chain'_append_of_getLastD {α : Type} {R : α → α → Prop} {l1 l2 : List α} (d : α)
    (h1 : List.Chain' R l1) (h2 : List.Chain' R l2)
    (hlink : ∀ y ∈ l2.head?, R (l1.getLastD d) y) (hne : l1 ≠ []) :
    List.Chain' R (l1 ++ l2) := by
  refine List.Chain'.append h1 h2 ?_
  intro x hx y hy
  have hgl : l1.getLastD d = x := by
    rw [List.getLastD_eq_getLast?]
    rw [Option.mem_def] at hx
    rw [hx]
    rfl
  rw [← hgl]
  exact hlink y hy

theorem bgSlides_map_progress_getLastD (env : PipelineEnv) (provider : String)
    (okey gkey : Option String) (model : String) (total : Nat) (l : List String)
    (idx : Nat) (job : BgJob) (d : Nat) :
    ((job :: (bgSlides env provider okey gkey model total idx l job).1).map
        (fun j => j.progress)).getLastD d =
      (bgSlides env provider okey gkey model total idx l job).2.1.progress := by
  rw [List.getLastD_eq_getLast?, List.getLast?_map, getLast?_cons_eq]
  rw [← bgSlides_last env provider okey gkey model total l idx job]
  rfl

theorem upload_progress_chain (env : PipelineEnv) (t : ℚ) (saveErr : Option String)
    (table0 : UTable) (filename provider : String) (okey gkey : Option String)
    (model : String) :
    List.Chain' (· ≤ ·)
      ((upload_core env t saveErr table0 filename provider okey gkey model).trace.map
        (fun j => j.progress)) := by
  rcases saveErr with _ | e
  · rcases hc : pptx_to_pdf env.conv ⟨uploadTmpDir, filename⟩ (uploadTmpDir ++ "/pdf")
      with e | pdf
    · rw [(upload_core_conv_error env t table0 filename provider okey gkey model e hc).2.1]
      simp
    · rcases he : env.raster.pageImages with _ | ⟨a, l⟩
      · rw [(upload_core_raster_error env t table0 filename provider okey gkey model pdf
          hc he).2.1]
        simp
      · rw [(upload_core_success env t table0 filename provider okey gkey model pdf hc
          (by rw [he]; simp)).2.2]
        simp [uploadFinalTrace, initialUJob, List.chain'_cons]
  · rw [(upload_core_save_error env t e table0 filename provider okey gkey model).2.1]
    simp

theorem upload_results_bound (env : PipelineEnv) (t : ℚ) (saveErr : Option String)
    (table0 : UTable) (filename provider : String) (okey gkey : Option String)
    (model : String) :
    ∀ j ∈ (upload_core env t saveErr table0 filename provider okey gkey model).trace,
      j.results.length ≤ env.raster.pageImages.length := by
  intro j hj
  rcases saveErr with _ | e
  · rcases hc : pptx_to_pdf env.conv ⟨uploadTmpDir, filename⟩ (uploadTmpDir ++ "/pdf")
      with e | pdf
    · rw [(upload_core_conv_error env t table0 filename provider okey gkey model e hc).2.1]
        at hj
      simp only [List.mem_singleton] at hj
      rw [hj]
      exact Nat.zero_le _
    · rcases he : env.raster.pageImages with _ | ⟨a, l⟩
      · rw [(upload_core_raster_error env t table0 filename provider okey gkey model pdf
          hc he).2.1] at hj
        simp only [List.mem_singleton] at hj
        rw [hj]
        exact Nat.zero_le _
      · rw [(upload_core_success env t table0 filename provider okey gkey model pdf hc
          (by rw [he]; simp)).2.2] at hj
        simp only [uploadFinalTrace, List.mem_cons, List.not_mem_nil, or_false] at hj
        rcases hj with h | h | h | h | h <;> subst h
        · exact Nat.zero_le _
        · exact Nat.zero_le _
        · exact Nat.zero_le _
        · exact Nat.zero_le _
        · rw [List.length_map,
            uploadSlides_length env provider okey gkey model env.raster.pageImages 1, he]
  · rw [(upload_core_save_error env t e table0 filename provider okey gkey model).2.1] at hj
    simp only [List.mem_singleton] at hj
    rw [hj]
    exact Nat.zero_le _

theorem upload_completed_results (env : PipelineEnv) (t : ℚ) (table0 : UTable)
    (filename provider : String) (okey gkey : Option String) (model : String) (pdf : PyPath)
    (hc : pptx_to_pdf env.conv ⟨uploadTmpDir, filename⟩ (uploadTmpDir ++ "/pdf") = .ok pdf)
    (hr : env.raster.pageImages ≠ []) :
    ((upload_core env t none table0 filename provider okey gkey model).trace.getLastD
        initialUJob).results.map (fun r => r.slide) =
      List.range' 1 env.raster.pageImages.length := by
  rw [(upload_core_success env t table0 filename provider okey gkey model pdf hc hr).2.2]
  show ((uploadSlides env provider okey gkey model 1 env.raster.pageImages).map
    (fun o => o.entry)).map (fun r => r.slide) = _
  rw [List.map_map]
  exact uploadSlides_map_slide env provider okey gkey model env.raster.pageImages 1

theorem process_progress_chain (env : PipelineEnv) (pptx : PyPath) (wd provider : String)
    (okey gkey : Option String) (model : String) :
    List.Chain' (· ≤ ·)
      ((process_file env pptx wd provider okey gkey model initialBgJob).map
        (fun j => j.progress)) := by
  rcases hc : pptx_to_pdf env.conv pptx (wd ++ "/pdf") with e | pdf
  · rw [process_file_conv_error env pptx wd provider okey gkey model initialBgJob e hc]
    simp [initialBgJob, List.chain'_cons]
  · rcases he : env.raster.pageImages with _ | ⟨a, l⟩
    · rw [process_file_raster_error env pptx wd provider okey gkey model initialBgJob
        pdf hc he]
      simp [initialBgJob, List.chain'_cons]
    · have hne : env.raster.pageImages ≠ [] := by rw [he]; simp
      have hchain := bgSlides_chain env provider okey gkey model
        (pySortedStr env.raster.pageImages).length (pySortedStr env.raster.pageImages) 1
        (bgJ4 initialBgJob) (by omega) (Nat.le_refl 1)
        (pfProgress_ge_20 1 (pySortedStr env.raster.pageImages).length) (by decide)
      have hlast := bgSlides_map_progress_getLastD env provider okey gkey model
        (pySortedStr env.raster.pageImages).length (pySortedStr env.raster.pageImages) 1
        (bgJ4 initialBgJob) 0
      rcases hab : (bgSlides env provider okey gkey model
          (pySortedStr env.raster.pageImages).length 1
          (pySortedStr env.raster.pageImages) (bgJ4 initialBgJob)).2.2 with _ | e
      · rw [process_file_completed_shape env pptx wd provider okey gkey model initialBgJob
          pdf hc hne hab]
        have hsplit : ∀ (X Y : List BgJob) (A B C D E : BgJob),
            [A, B, C, D, E] ++ X ++ Y = [A, B, C, D] ++ ((E :: X) ++ Y) := by
          intro X Y A B C D E
          simp
        rw [hsplit]
        rw [List.map_append]
        refine chain'_append_of_getLastD 0 ?_ ?_ ?_ (by simp)
        · simp [initialBgJob, List.chain'_cons]
        · rw [List.map_append]
          refine chain'_append_of_getLastD 0 hchain.1 ?_ ?_ (by simp)
          · simp only [List.map_cons, List.map_nil, List.chain'_cons]
            refine ⟨?_, ?_, List.chain'_singleton _⟩
            · show (bgSlides env provider okey gkey model
                (pySortedStr env.raster.pageImages).length 1
                (pySortedStr env.raster.pageImages) (bgJ4 initialBgJob)).2.1.progress ≤ 100
              have h80 := hchain.2
              omega
            · exact Nat.le_refl 100
          · intro y hy
            simp only [List.map_cons, List.head?_cons, Option.mem_def,
              Option.some.injEq] at hy
            rw [hlast, ← hy]
        · intro y hy
          rw [List.map_append, List.map_cons] at hy
          simp only [List.head?_append, List.head?_cons] at hy
          rw [Option.mem_def] at hy
          simp only [Option.or_some, Option.some.injEq] at hy
          rw [← hy]
          simp [initialBgJob, bgJ4]
      · rw [process_file_abort env pptx wd provider okey gkey model initialBgJob pdf e
          hc hne hab]
        have hsplit : ∀ (X Y : List BgJob) (A B C D E : BgJob),
            [A, B, C, D, E] ++ X ++ Y = [A, B, C, D] ++ ((E :: X) ++ Y) := by
          intro X Y A B C D E
          simp
        rw [hsplit]
        rw [List.map_append]
        refine chain'_append_of_getLastD 0 ?_ ?_ ?_ (by simp)
        · simp [initialBgJob, List.chain'_cons]
        · rw [List.map_append]
          refine chain'_append_of_getLastD 0 hchain.1 ?_ ?_ (by simp)
          · simp only [List.map_cons, List.map_nil, List.chain'_cons]
            exact ⟨Nat.le_refl _, List.chain'_singleton _⟩
          · intro y hy
            simp only [List.map_cons, List.head?_cons, Option.mem_def,
              Option.some.injEq] at hy
            rw [hlast, ← hy]
        · intro y hy
          rw [List.map_append, List.map_cons] at hy
          simp only [List.head?_append, List.head?_cons] at hy
          rw [Option.mem_def] at hy
          simp only [Option.or_some, Option.some.injEq] at hy
          rw [← hy]
          simp [initialBgJob, bgJ4]

theorem process_results_bound (env : PipelineEnv) (pptx : PyPath) (wd provider : String)
    (okey gkey : Option String) (model : String) :
    ∀ j ∈ process_file env pptx wd provider okey gkey model initialBgJob,
      j.results.length ≤ env.raster.pageImages.length := by
  intro j hj
  rcases hc : pptx_to_pdf env.conv pptx (wd ++ "/pdf") with e | pdf
  · rw [process_file_conv_error env pptx wd provider okey gkey model initialBgJob e hc]
      at hj
    simp only [List.mem_cons, List.not_mem_nil, or_false] at hj
    rcases hj with h | h | h | h | h <;> subst h <;> simp [initialBgJob]
  · rcases he : env.raster.pageImages with _ | ⟨a, l⟩
    · rw [process_file_raster_error env pptx wd provider okey gkey model initialBgJob
        pdf hc he] at hj
      simp only [List.mem_cons, List.not_mem_nil, or_false] at hj
      rcases hj with h | h | h | h | h | h | h <;> subst h <;> simp [initialBgJob]
    · have hne : env.raster.pageImages ≠ [] := by rw [he]; simp
      rw [← he]
      have hlenS : (pySortedStr env.raster.pageImages).length =
          env.raster.pageImages.length := pySortedStr_length env.raster.pageImages
      have h0 : (bgJ4 initialBgJob).results.length = 0 := rfl
      have hloop := bgSlides_trace_results_le env provider okey gkey model
        (pySortedStr env.raster.pageImages).length (pySortedStr env.raster.pageImages) 1
        (bgJ4 initialBgJob)
      have hfinal : (bgSlides env provider okey gkey model
          (pySortedStr env.raster.pageImages).length 1
          (pySortedStr env.raster.pageImages) (bgJ4 initialBgJob)).2.1.results.length ≤
          env.raster.pageImages.length := by
        rw [bgSlides_final_results env provider okey gkey model
          (pySortedStr env.raster.pageImages).length (pySortedStr env.raster.pageImages) 1
          (bgJ4 initialBgJob)]
        have hb := bgResultsOf_length_le env provider okey gkey model
          (pySortedStr env.raster.pageImages) 1
        simp only [List.length_append]
        have h0 : (bgJ4 initialBgJob).results.length = 0 := rfl
        omega
      rcases hab : (bgSlides env provider okey gkey model
          (pySortedStr env.raster.pageImages).length 1
          (pySortedStr env.raster.pageImages) (bgJ4 initialBgJob)).2.2 with _ | e
      · rw [process_file_completed_shape env pptx wd provider okey gkey model initialBgJob
          pdf hc hne hab] at hj
        rw [List.append_assoc, List.mem_append] at hj
        rcases hj with h | h
        · simp only [List.mem_cons, List.not_mem_nil, or_false] at h
          rcases h with h | h | h | h | h <;> subst h <;> simp [initialBgJob, bgJ4]
        · rw [List.mem_append] at h
          rcases h with h | h
          · have := hloop j h
            omega
          · simp only [List.mem_cons, List.not_mem_nil, or_false] at h
            rcases h with h | h | h <;> subst h <;> exact hfinal
      · rw [process_file_abort env pptx wd provider okey gkey model initialBgJob pdf e
          hc hne hab] at hj
        rw [List.append_assoc, List.mem_append] at hj
        rcases hj with h | h
        · simp only [List.mem_cons, List.not_mem_nil, or_false] at h
          rcases h with h | h | h | h | h <;> subst h <;> simp [initialBgJob, bgJ4]
        · rw [List.mem_append] at h
          rcases h with h | h
          · have := hloop j h
            omega
          · simp only [List.mem_cons, List.not_mem_nil, or_false] at h
            rcases h with h | h <;> subst h <;> exact hfinal

theorem process_completed_results (env : PipelineEnv) (pptx : PyPath) (wd provider : String)
    (okey gkey : Option String) (model : String) (pdf : PyPath)
    (hc : pptx_to_pdf env.conv pptx (wd ++ "/pdf") = .ok pdf)
    (hr : env.raster.pageImages ≠ [])
    (hex : ∀ x ∈ env.raster.pageImages, ∃ raw, env.extract x = .ok raw) :
    ((process_file env pptx wd provider okey gkey model initialBgJob).getLastD
        initialBgJob).results.map (fun r => r.slide_num) =
      List.range' 1 env.raster.pageImages.length := by
  rw [process_file_completed env pptx wd provider okey gkey model initialBgJob pdf hc hr
    hex, getLastD_append_three]
  show (bgSlides env provider okey gkey model (pySortedStr env.raster.pageImages).length 1
    (pySortedStr env.raster.pageImages) (bgJ4 initialBgJob)).2.1.results.map
      (fun r => r.slide_num) = _
  rw [bgSlides_final_results env provider okey gkey model
    (pySortedStr env.raster.pageImages).length (pySortedStr env.raster.pageImages) 1
    (bgJ4 initialBgJob)]
  have hex' : ∀ x ∈ pySortedStr env.raster.pageImages, ∃ raw, env.extract x = .ok raw :=
    fun x hx => hex x ((pySortedStr_mem env.raster.pageImages x).mp hx)
  have h0 : (bgJ4 initialBgJob).results = [] := rfl
  rw [h0, List.nil_append,
    bgResultsOf_map_slide env provider okey gkey model _ 1 hex',
    pySortedStr_length]

theorem slide_index_props {α : Type} (results : List α) (f : α → Nat) (N : Nat)
    (h : results.map f = List.range' 1 N) :
    results.length = N ∧ (results.map f).Nodup ∧
      List.Pairwise (· < ·) (results.map f) ∧ ∀ r ∈ results, 1 ≤ f r ∧ f r ≤ N := by
  refine ⟨?_, ?_, ?_, ?_⟩
  · have hl := congrArg List.length h
    simpa using hl
  · rw [h]
    exact List.nodup_range' 1 N
  · rw [h]
    exact List.pairwise_lt_range' 1 N
  · intro r hr
    have hm : f r ∈ results.map f := List.mem_map_of_mem f hr
    rw [h, List.mem_range'] at hm
    obtain ⟨i, hi, hieq⟩ := hm
    omega

/-- C8: in both pipeline variants, over a document with N page images the
job entry's progress is monotonically non-decreasing along its whole trace
and the results list never exceeds N entries at any point; a run that
reaches completion ends with exactly N entries whose slide indices are
unique, lie in 1..N, and appear in ascending order. -/
theorem C8_progress_monotone_results_bounded :
    (∀ (env : PipelineEnv) (t : ℚ) (saveErr : Option String) (table0 : UTable)
        (filename provider : String) (okey gkey : Option String) (model : String),
      List.Chain' (· ≤ ·)
          ((upload_core env t saveErr table0 filename provider okey gkey model).trace.map
            (fun j => j.progress)) ∧
        ∀ j ∈ (upload_core env t saveErr table0 filename provider okey gkey model).trace,
          j.results.length ≤ env.raster.pageImages.length) ∧
      (∀ (env : PipelineEnv) (t : ℚ) (table0 : UTable) (filename provider : String)
          (okey gkey : Option String) (model : String) (pdf : PyPath),
        pptx_to_pdf env.conv ⟨uploadTmpDir, filename⟩ (uploadTmpDir ++ "/pdf") = .ok pdf →
        env.raster.pageImages ≠ [] →
        ((upload_core env t none table0 filename provider okey gkey model).trace.getLastD
            initialUJob).results.map (fun r => r.slide) =
            List.range' 1 env.raster.pageImages.length ∧
          ((upload_core env t none table0 filename provider okey gkey model).trace.getLastD
            initialUJob).results.length = env.raster.pageImages.length ∧
          (((upload_core env t none table0 filename provider okey gkey model).trace.getLastD
            initialUJob).results.map (fun r => r.slide)).Nodup ∧
          List.Pairwise (· < ·)
            (((upload_core env t none table0 filename provider okey gkey
              model).trace.getLastD initialUJob).results.map (fun r => r.slide)) ∧
          ∀ r ∈ ((upload_core env t none table0 filename provider okey gkey
              model).trace.getLastD initialUJob).results,
            1 ≤ r.slide ∧ r.slide ≤ env.raster.pageImages.length) ∧
      (∀ (env : PipelineEnv) (pptx : PyPath) (wd provider : String)
          (okey gkey : Option String) (model : String),
        List.Chain' (· ≤ ·)
            ((process_file env pptx wd provider okey gkey model initialBgJob).map
              (fun j => j.progress)) ∧
          ∀ j ∈ process_file env pptx wd provider okey gkey model initialBgJob,
            j.results.length ≤ env.raster.pageImages.length) ∧
      (∀ (env : PipelineEnv) (pptx : PyPath) (wd provider : String)
          (okey gkey : Option String) (model : String) (pdf : PyPath),
        pptx_to_pdf env.conv pptx (wd ++ "/pdf") = .ok pdf →
        env.raster.pageImages ≠ [] →
        (∀ x ∈ env.raster.pageImages, ∃ raw, env.extract x = .ok raw) →
        ((process_file env pptx wd provider okey gkey model initialBgJob).getLastD
            initialBgJob).results.map (fun r => r.slide_num) =
            List.range' 1 env.raster.pageImages.length ∧
          ((process_file env pptx wd provider okey gkey model initialBgJob).getLastD
            initialBgJob).results.length = env.raster.pageImages.length ∧
          (((process_file env pptx wd provider okey gkey model initialBgJob).getLastD
            initialBgJob).results.map (fun r => r.slide_num)).Nodup ∧
          List.Pairwise (· < ·)
            (((process_file env pptx wd provider okey gkey model initialBgJob).getLastD
              initialBgJob).results.map (fun r => r.slide_num)) ∧
          ∀ r ∈ ((process_file env pptx wd provider okey gkey model
              initialBgJob).getLastD initialBgJob).results,
            1 ≤ r.slide_num ∧ r.slide_num ≤ env.raster.pageImages.length) := by
  refine ⟨?_, ?_, ?_, ?_⟩
  · intro env t saveErr table0 filename provider okey gkey model
    exact ⟨upload_progress_chain env t saveErr table0 filename provider okey gkey model,
      upload_results_bound env t saveErr table0 filename provider okey gkey model⟩
  · intro env t table0 filename provider okey gkey model pdf hc hr
    have hmap := upload_completed_results env t table0 filename provider okey gkey model
      pdf hc hr
    have hprops := slide_index_props _ (fun r : SlideResult => r.slide)
      env.raster.pageImages.length hmap
    exact ⟨hmap, hprops.1, hprops.2.1, hprops.2.2.1, hprops.2.2.2⟩
  · intro env pptx wd provider okey gkey model
    exact ⟨process_progress_chain env pptx wd provider okey gkey model,
      process_results_bound env pptx wd provider okey gkey model⟩
  · intro env pptx wd provider okey gkey model pdf hc hr hex
    have hmap := process_completed_results env pptx wd provider okey gkey model pdf hc
      hr hex
    have hprops := slide_index_props _ (fun r : BgSlideResult => r.slide_num)
      env.raster.pageImages.length hmap
    exact ⟨hmap, hprops.1, hprops.2.1, hprops.2.2.1, hprops.2.2.2⟩

theorem C8_progress_monotone_results_bounded_witness :
    pptx_to_pdf envHappy2.conv ⟨uploadTmpDir, "deck.pptx"⟩ (uploadTmpDir ++ "/pdf") =
        .ok ⟨uploadTmpDir ++ "/pdf", "deck.pdf"⟩ ∧
      envHappy2.raster.pageImages ≠ [] ∧
      ((upload_core envHappy2 7 none emptyUTable "deck.pptx" "openai" (some "sk") none
          "gem-model").trace.getLastD initialUJob).results.map (fun r => r.slide) =
        List.range' 1 envHappy2.raster.pageImages.length ∧
      (∀ x ∈ envHappy2.raster.pageImages, ∃ raw, envHappy2.extract x = .ok raw) ∧
      ((process_file envHappy2 ⟨"/tmp/work", "deck.pptx"⟩ "/tmp/work" "openai" (some "sk")
          none "gem-model" initialBgJob).getLastD initialBgJob).results.map
          (fun r => r.slide_num) =
        List.range' 1 envHappy2.raster.pageImages.length := by
  refine ⟨by decide, by decide, ?_, fun x _ => ⟨"slide text", rfl⟩, ?_⟩
  · exact (C8_progress_monotone_results_bounded.2.1 envHappy2 7 emptyUTable "deck.pptx"
      "openai" (some "sk") none "gem-model" ⟨uploadTmpDir ++ "/pdf", "deck.pdf"⟩
      (by decide) (by decide)).1
  · exact (C8_progress_monotone_results_bounded.2.2.2 envHappy2 ⟨"/tmp/work", "deck.pptx"⟩
      "/tmp/work" "openai" (some "sk") none "gem-model" ⟨"/tmp/work/pdf", "deck.pdf"⟩
      (by decide) (by decide) (fun x _ => ⟨"slide text", rfl⟩)).1

/-- C10: job identifiers are the whole-second creation timestamp as a
string (str(int(time.time())), main.py line 92), so two upload requests
accepted within the same clock second get the SAME identifier and the
second job's initial entry overwrites the first job's entry: after both
runs the whole table holds exactly one entry, the second run's final one,
under the shared identifier. -/
theorem C10_same_second_ids_collide_and_overwrite (t1 t2 : ℚ)
    (env1 env2 : PipelineEnv) (se1 se2 : Option String) (f1 f2 p1 p2 : String)
    (ok1 gk1 ok2 gk2 : Option String) (m1 m2 : String)
    (hfloor : Rat.floor t1 = Rat.floor t2)
    (hf1 : (pyEndsWith f1 ".ppt" || pyEndsWith f1 ".pptx") = true)
    (hk1a : (p1 == "openai" && pyFalsy ok1) = false)
    (hk1b : (p1 == "gemini" && pyFalsy gk1) = false)
    (hf2 : (pyEndsWith f2 ".ppt" || pyEndsWith f2 ".pptx") = true)
    (hk2a : (p2 == "openai" && pyFalsy ok2) = false)
    (hk2b : (p2 == "gemini" && pyFalsy gk2) = false) :
    jobIdOf t1 = jobIdOf t2 ∧
      ∀ id j,
        (upload_file env2 t2 se2
            (upload_file env1 t1 se1 emptyUTable f1 p1 ok1 gk1 m1).table
            f2 p2 ok2 gk2 m2).table id = some j →
        id = jobIdOf t1 ∧
          j = (upload_file env2 t2 se2
              (upload_file env1 t1 se1 emptyUTable f1 p1 ok1 gk1 m1).table
              f2 p2 ok2 gk2 m2).trace.getLastD initialUJob := by
  have hid : jobIdOf t1 = jobIdOf t2 := by
    unfold jobIdOf
    rw [hfloor]
  have hv1 := upload_file_valid env1 t1 se1 emptyUTable f1 p1 ok1 gk1 m1 hf1 hk1a hk1b
  have hv2 := upload_file_valid env2 t2 se2
    (upload_file env1 t1 se1 emptyUTable f1 p1 ok1 gk1 m1).table f2 p2 ok2 gk2 m2
    hf2 hk2a hk2b
  refine ⟨hid, ?_⟩
  intro id j hj
  rw [hv2, upload_core_table] at hj
  by_cases hcase : id = jobIdOf t2
  · rw [if_pos hcase] at hj
    simp only [Option.some.injEq] at hj
    refine ⟨by rw [hcase, ← hid], ?_⟩
    rw [hv2, ← hj]
  · rw [if_neg hcase] at hj
    rw [hv1, upload_core_table] at hj
    rw [if_neg (by rw [← hid] at hcase; exact hcase)] at hj
    exact absurd hj (by simp [emptyUTable])

theorem C10_same_second_ids_collide_and_overwrite_witness :
    Rat.floor halfPastNine = Rat.floor (9 : ℚ) ∧
      jobIdOf halfPastNine = jobIdOf (9 : ℚ) ∧
      ∀ id j,
        (upload_file envHappy 9 none
            (upload_file envConvFail halfPastNine none emptyUTable "deck.pptx" "openai"
              (some "sk") none "gem-model").table
            "other.pptx" "openai" (some "sk2") none "gem-model").table id = some j →
        id = jobIdOf halfPastNine ∧
          j = (upload_file envHappy 9 none
              (upload_file envConvFail halfPastNine none emptyUTable "deck.pptx" "openai"
                (some "sk") none "gem-model").table
              "other.pptx" "openai" (some "sk2") none "gem-model").trace.getLastD
            initialUJob := by
  have h := C10_same_second_ids_collide_and_overwrite halfPastNine (9 : ℚ) envConvFail
    envHappy none none "deck.pptx" "other.pptx" "openai" "openai" (some "sk") none
    (some "sk2") none "gem-model" "gem-model" (by decide) (by decide) (by decide)
    (by decide) (by decide) (by decide) (by decide)
  exact ⟨by decide, h.1, h.2⟩
